import Mathlib

/-!
Verification of the crusty_gba ARM7TDMI CPU core against its
natural-language specification.

The definitions below are a shallow embedding of the Rust sources:
machine integers `u32`/`u64`/`i64` are modelled as `Nat`/`Int` with explicit
`% 2^32` (or sign handling) where overflow matters, `Vec` fields as `List Nat`,
and every Rust operation that can panic is modelled with `Option` (a `none`
result models a panic / `todo` / failed `unwrap`).  Each definition carries a
comment naming the Rust item it embeds.
-/

namespace GBA

/-- 2^32, the modulus of the 32-bit machine words. -/
def u32size : Nat := 4294967296

/-- `common::BitOperation::set_bit` for u32: `self | (1 << index)`. -/
def set_bit (v i : Nat) : Nat := v ||| (1 <<< i)

/-- `common::BitOperation::clear_bit` for u32: `self & !(1 << index)`;
the 32-bit complement of `1 << i` is `0xffffffff ^^^ (1 <<< i)` for `i ≤ 31`. -/
def clear_bit (v i : Nat) : Nat := v &&& (0xffffffff ^^^ (1 <<< i))

/-- `common::BitOperation::is_bit_set` for u32: `(self & (1 << index)) != 0`. -/
def is_bit_set (v i : Nat) : Bool := v &&& (1 <<< i) != 0

/-- `common::BitOperation::is_bit_clear` for u32. -/
def is_bit_clear (v i : Nat) : Bool := ! is_bit_set v i

/-- `common::BitOperation::get_range` for u32:
`(self >> begin) & ((1 << (end - begin + 1)) - 1)`.
All call sites in the embedded code satisfy `b ≤ e` (the source panics
otherwise). -/
def get_range (v e b : Nat) : Nat := (v >>> b) &&& ((1 <<< (e - b + 1)) - 1)

/-- `arm7_tdmi::OperatingMode` (mod.rs): the 7 legal processor modes. -/
inductive OperatingMode where
  | SYSTEM
  | USER
  | FIQ
  | IRQ
  | SUPERVISOR
  | ABORT
  | UND
deriving DecidableEq, Repr

/-- The numeric discriminants of `OperatingMode` (`as u32` in the source). -/
def OperatingMode.val : OperatingMode → Nat
  | .SYSTEM => 0b10000
  | .USER => 0b11111
  | .FIQ => 0b10001
  | .IRQ => 0b10010
  | .SUPERVISOR => 0b10011
  | .ABORT => 0b10111
  | .UND => 0b11011

/-- `register_file::ConditionCodeFlag`: the four CPSR flags. -/
inductive ConditionCodeFlag where
  | N
  | Z
  | C
  | V
deriving DecidableEq, Repr

/-- `register_file::RegisterFile`: user registers plus the mode banks,
CPSR and the SPSR bank (register_file.rs). -/
structure RegisterFile where
  registers : List Nat
  fiq_bank : List Nat
  svc_bank : List Nat
  abt_bank : List Nat
  irq_bank : List Nat
  und_bank : List Nat
  cpsr : Nat
  spsr : List Nat
deriving DecidableEq, Repr

/-- `RegisterFile::new`: all registers 0 except r15 = 0x07fffff8,
cpsr = 0x10 (SYSTEM mode). -/
def RegisterFile.new : RegisterFile :=
  { registers := (List.replicate 15 0) ++ [0x07fffff8]
    fiq_bank := List.replicate 7 0
    svc_bank := List.replicate 2 0
    abt_bank := List.replicate 2 0
    irq_bank := List.replicate 2 0
    und_bank := List.replicate 2 0
    cpsr := 0x00000010
    spsr := List.replicate 5 0 }

/-- `RegisterFile::get_register` (register_file.rs, lines 97-119): read a
register through the bank selected by the cpsr mode bits; slot 15 adds
`pc_increment` with wrap-around.  `none` models the panics (an illegal mode
while reading r13/r14, or an index above 15). -/
def RegisterFile.get_register (rf : RegisterFile) (index pc_increment : Nat) :
    Option Nat :=
  let mode := get_range rf.cpsr 4 0
  if index ≤ 7 then
    some (rf.registers.getD index 0)
  else if index ≤ 12 then
    if mode = OperatingMode.FIQ.val then some (rf.fiq_bank.getD (index - 8) 0)
    else some (rf.registers.getD index 0)
  else if index ≤ 14 then
    if mode = OperatingMode.SYSTEM.val then some (rf.registers.getD index 0)
    else if mode = OperatingMode.USER.val then some (rf.registers.getD index 0)
    else if mode = OperatingMode.FIQ.val then some (rf.fiq_bank.getD (index - 8) 0)
    else if mode = OperatingMode.SUPERVISOR.val then some (rf.svc_bank.getD (index - 13) 0)
    else if mode = OperatingMode.ABORT.val then some (rf.abt_bank.getD (index - 13) 0)
    else if mode = OperatingMode.IRQ.val then some (rf.irq_bank.getD (index - 13) 0)
    else if mode = OperatingMode.UND.val then some (rf.und_bank.getD (index - 13) 0)
    else none
  else if index = 15 then
    some ((rf.registers.getD 15 0 + pc_increment) % u32size)
  else none

/-- `RegisterFile::write_register` (register_file.rs, lines 128-150): write a
register through the bank selected by the cpsr mode bits.  Unlike the read
path, an unknown mode falls through to the unbanked registers (the source has
no panic there); `none` only models the panic for an index above 15. -/
def RegisterFile.write_register (rf : RegisterFile) (index value : Nat) :
    Option RegisterFile :=
  let mode := get_range rf.cpsr 4 0
  if index ≤ 7 then
    some { rf with registers := rf.registers.set index value }
  else if index ≤ 12 then
    if mode = OperatingMode.FIQ.val then
      some { rf with fiq_bank := rf.fiq_bank.set (index - 8) value }
    else some { rf with registers := rf.registers.set index value }
  else if index ≤ 14 then
    if mode = OperatingMode.FIQ.val then
      some { rf with fiq_bank := rf.fiq_bank.set (index - 8) value }
    else if mode = OperatingMode.SUPERVISOR.val then
      some { rf with svc_bank := rf.svc_bank.set (index - 13) value }
    else if mode = OperatingMode.ABORT.val then
      some { rf with abt_bank := rf.abt_bank.set (index - 13) value }
    else if mode = OperatingMode.IRQ.val then
      some { rf with irq_bank := rf.irq_bank.set (index - 13) value }
    else if mode = OperatingMode.UND.val then
      some { rf with und_bank := rf.und_bank.set (index - 13) value }
    else some { rf with registers := rf.registers.set index value }
  else if index = 15 then
    some { rf with registers := rf.registers.set 15 value }
  else none

/-- `RegisterFile::get_cpsr`. -/
def RegisterFile.get_cpsr (rf : RegisterFile) : Nat := rf.cpsr

/-- `RegisterFile::is_mode_correct` (register_file.rs, lines 251-264): the
low 5 bits of `value` must name one of the 7 modes. -/
def RegisterFile.is_mode_correct (value : Nat) : Bool :=
  let v := get_range value 4 0
  if v != OperatingMode.SYSTEM.val
      && v != OperatingMode.USER.val
      && v != OperatingMode.FIQ.val
      && v != OperatingMode.IRQ.val
      && v != OperatingMode.SUPERVISOR.val
      && v != OperatingMode.ABORT.val
      && v != OperatingMode.UND.val then
    false
  else
    true

/-- `RegisterFile::write_cpsr` (register_file.rs, lines 167-173).  The `Bool`
is the Rust `Result<(), ()>`: `true` for `Ok(())` (cpsr updated), `false` for
`Err(())` (no mutation). -/
def RegisterFile.write_cpsr (rf : RegisterFile) (value : Nat) :
    RegisterFile × Bool :=
  if ! RegisterFile.is_mode_correct value then (rf, false)
  else ({ rf with cpsr := value }, true)

/-- `RegisterFile::write_v`: set or clear cpsr bit 28. -/
def RegisterFile.write_v (rf : RegisterFile) (v : Bool) : RegisterFile :=
  if v then { rf with cpsr := set_bit rf.cpsr 28 }
  else { rf with cpsr := clear_bit rf.cpsr 28 }

/-- `RegisterFile::write_n`: set or clear cpsr bit 31. -/
def RegisterFile.write_n (rf : RegisterFile) (n : Bool) : RegisterFile :=
  if n then { rf with cpsr := set_bit rf.cpsr 31 }
  else { rf with cpsr := clear_bit rf.cpsr 31 }

/-- `RegisterFile::write_c`: set or clear cpsr bit 29. -/
def RegisterFile.write_c (rf : RegisterFile) (c : Bool) : RegisterFile :=
  if c then { rf with cpsr := set_bit rf.cpsr 29 }
  else { rf with cpsr := clear_bit rf.cpsr 29 }

/-- `RegisterFile::write_z`: set or clear cpsr bit 30. -/
def RegisterFile.write_z (rf : RegisterFile) (z : Bool) : RegisterFile :=
  if z then { rf with cpsr := set_bit rf.cpsr 30 }
  else { rf with cpsr := clear_bit rf.cpsr 30 }

/-- `RegisterFile::get_spsr` (register_file.rs, lines 233-243): read the spsr
slot of the current mode; `none` models the panic outside the 5 privileged
modes. -/
def RegisterFile.get_spsr (rf : RegisterFile) : Option Nat :=
  let mode := get_range rf.cpsr 4 0
  if mode = OperatingMode.FIQ.val then some (rf.spsr.getD 0 0)
  else if mode = OperatingMode.SUPERVISOR.val then some (rf.spsr.getD 1 0)
  else if mode = OperatingMode.ABORT.val then some (rf.spsr.getD 2 0)
  else if mode = OperatingMode.IRQ.val then some (rf.spsr.getD 3 0)
  else if mode = OperatingMode.UND.val then some (rf.spsr.getD 4 0)
  else none

/-- `RegisterFile::write_spsr` (register_file.rs, lines 272-288).  The `Bool`
is the Rust `Result<(), ()>`; a write in a non-privileged mode is a silent
no-op (`_ => {}` in the source). -/
def RegisterFile.write_spsr (rf : RegisterFile) (value : Nat) :
    RegisterFile × Bool :=
  if ! RegisterFile.is_mode_correct value then (rf, false)
  else
    let mode := get_range rf.cpsr 4 0
    if mode = OperatingMode.FIQ.val then ({ rf with spsr := rf.spsr.set 0 value }, true)
    else if mode = OperatingMode.SUPERVISOR.val then ({ rf with spsr := rf.spsr.set 1 value }, true)
    else if mode = OperatingMode.ABORT.val then ({ rf with spsr := rf.spsr.set 2 value }, true)
    else if mode = OperatingMode.IRQ.val then ({ rf with spsr := rf.spsr.set 3 value }, true)
    else if mode = OperatingMode.UND.val then ({ rf with spsr := rf.spsr.set 4 value }, true)
    else (rf, true)

/-- `RegisterFile::is_flag_set`: read one of the N/Z/C/V flags from cpsr
(bits 31/30/29/28). -/
def RegisterFile.is_flag_set (rf : RegisterFile) (flag : ConditionCodeFlag) :
    Bool :=
  match flag with
  | .N => get_range rf.cpsr 31 31 = 1
  | .Z => get_range rf.cpsr 30 30 = 1
  | .C => get_range rf.cpsr 29 29 = 1
  | .V => get_range rf.cpsr 28 28 = 1

/-- `RegisterFile::check_condition_code` (register_file.rs, lines 312-335),
translated arm for arm.  The final catch-all of the Rust `match` panics, but
it is unreachable because `get_range code 3 0 < 16`; the Lean default arm
mirrors the `0b1111` arm it can never diverge from. -/
def RegisterFile.check_condition_code (rf : RegisterFile) (code : Nat) : Bool :=
  match get_range code 3 0 with
  | 0b0000 => rf.is_flag_set .Z
  | 0b0001 => ! rf.is_flag_set .Z
  | 0b0010 => rf.is_flag_set .C
  | 0b0011 => ! rf.is_flag_set .C
  | 0b0100 => rf.is_flag_set .N
  | 0b0101 => ! rf.is_flag_set .N
  | 0b0110 => rf.is_flag_set .V
  | 0b0111 => ! rf.is_flag_set .V
  | 0b1000 => rf.is_flag_set .C && ! rf.is_flag_set .Z
  | 0b1001 => ! rf.is_flag_set .C && rf.is_flag_set .Z
  | 0b1010 => rf.is_flag_set .N == rf.is_flag_set .V
  | 0b1011 => rf.is_flag_set .N != rf.is_flag_set .V
  | 0b1100 => ! rf.is_flag_set .Z && (rf.is_flag_set .N == rf.is_flag_set .V)
  | 0b1101 => rf.is_flag_set .Z && (rf.is_flag_set .N != rf.is_flag_set .V)
  | 0b1110 => true
  | _ => true

/-- `RegisterFile::get_mode` (register_file.rs, lines 342-353): decode the
mode enum from cpsr; anything unrecognised falls back to SYSTEM. -/
def RegisterFile.get_mode (rf : RegisterFile) : OperatingMode :=
  let mode := get_range rf.cpsr 4 0
  if mode = OperatingMode.USER.val then .USER
  else if mode = OperatingMode.FIQ.val then .FIQ
  else if mode = OperatingMode.IRQ.val then .IRQ
  else if mode = OperatingMode.SUPERVISOR.val then .SUPERVISOR
  else if mode = OperatingMode.ABORT.val then .ABORT
  else if mode = OperatingMode.UND.val then .UND
  else .SYSTEM

/-- The documented ARM condition table (spec §4.1/§8): for flags n/z/c/v and
a 4-bit condition code, the architecturally defined outcome.  Written from
the specification, to be compared with `check_condition_code`. -/
def arm_condition_table (n z c v : Bool) (code : Nat) : Bool :=
  match code % 16 with
  | 0b0000 => z
  | 0b0001 => ! z
  | 0b0010 => c
  | 0b0011 => ! c
  | 0b0100 => n
  | 0b0101 => ! n
  | 0b0110 => v
  | 0b0111 => ! v
  | 0b1000 => c && ! z
  | 0b1001 => ! c || z
  | 0b1010 => n == v
  | 0b1011 => n != v
  | 0b1100 => ! z && (n == v)
  | 0b1101 => z || (n != v)
  | 0b1110 => true
  | _ => true

/-! ### ALU: signed/unsigned helpers, the two revisions of `ARM7TDMI::alu` -/

/-- 2^64, the modulus of 64-bit machine words. -/
def u64size : Nat := 18446744073709551616

/-- Rust `(x as i32) as i64` for a u32 value `x`: sign extension from 32 bits. -/
def signExt32 (x : Nat) : Int := if is_bit_set x 31 then (x : Int) - 4294967296 else (x : Int)

/-- Rust `(x as u64).get_range(31, 0) as u32` for an i64 value `x`: the low
32 bits of the two's complement representation. -/
def toU32 (x : Int) : Nat := (x % (4294967296 : Int)).toNat

/-- Rust `(x as u64)` for an i64 value `x`: two's complement reinterpretation. -/
def toU64 (x : Int) : Nat := (x % (18446744073709551616 : Int)).toNat

/-- Rust `!x` on u32 (bitwise complement), for `x < 2^32`. -/
def bnot32 (x : Nat) : Nat := 0xffffffff ^^^ x

/-- `instruction::ArmAluOpcode`: the 16 data-processing opcodes. -/
inductive ArmAluOpcode where
  | AND
  | EOR
  | SUB
  | RSB
  | ADD
  | ADC
  | SBC
  | RSC
  | TST
  | TEQ
  | CMP
  | CMN
  | ORR
  | MOV
  | BIC
  | MNV
deriving DecidableEq, Repr

/-- The numeric discriminants of `ArmAluOpcode` (`as u32` in the source). -/
def ArmAluOpcode.val : ArmAluOpcode → Nat
  | .AND => 0
  | .EOR => 1
  | .SUB => 2
  | .RSB => 3
  | .ADD => 4
  | .ADC => 5
  | .SBC => 6
  | .RSC => 7
  | .TST => 8
  | .TEQ => 9
  | .CMP => 10
  | .CMN => 11
  | .ORR => 12
  | .MOV => 13
  | .BIC => 14
  | .MNV => 15

/-- `ArmAluOpcode::is_test_opcode`: opcodes 8..11 (TST/TEQ/CMP/CMN). -/
def ArmAluOpcode.is_test_opcode (opcode : ArmAluOpcode) : Bool :=
  if 8 ≤ opcode.val ∧ opcode.val ≤ 11 then true else false

/-- `ArmAluOpcode::is_logical`: opcodes 0..1, 8..9, 12..15. -/
def ArmAluOpcode.is_logical (opcode : ArmAluOpcode) : Bool :=
  if opcode.val ≤ 1 ∨ (8 ≤ opcode.val ∧ opcode.val ≤ 9) ∨ 0xc ≤ opcode.val then
    true
  else false

/-- `ArmAluOpcode::is_arithmetic`. -/
def ArmAluOpcode.is_arithmetic (opcode : ArmAluOpcode) : Bool :=
  ! ArmAluOpcode.is_logical opcode

/-- `ArmAluOpcode::from_value`: opcode from the 4-bit instruction field
(anything not between 0 and 14 falls through to MNV, as in the source). -/
def ArmAluOpcode.from_value (opcode : Nat) : ArmAluOpcode :=
  if opcode = 0 then .AND
  else if opcode = 1 then .EOR
  else if opcode = 2 then .SUB
  else if opcode = 3 then .RSB
  else if opcode = 4 then .ADD
  else if opcode = 5 then .ADC
  else if opcode = 6 then .SBC
  else if opcode = 7 then .RSC
  else if opcode = 8 then .TST
  else if opcode = 9 then .TEQ
  else if opcode = 10 then .CMP
  else if opcode = 11 then .CMN
  else if opcode = 12 then .ORR
  else if opcode = 13 then .MOV
  else if opcode = 14 then .BIC
  else .MNV

/-- `ARM7TDMI::alu`, revised version (instruction.rs, lines 372-413): the
arithmetic ALU.  Operands are sign-extended to i64; carry comes from unsigned
comparisons / 64-bit unsigned sums, overflow from the bit-31 XOR formulas.
`none` models the panic on a non-arithmetic opcode.  The method only reads
`self.rf` (for the incoming carry flag). -/
def alu (rf : RegisterFile) (operand1 operand2 : Nat) (opcode : ArmAluOpcode) :
    Option (Nat × Bool × Bool) :=
  let c_in : Int := if rf.is_flag_set .C then 1 else 0
  let c_in_u : Nat := if rf.is_flag_set .C then 1 else 0
  let op1 : Int := signExt32 operand1
  let op2 : Int := signExt32 operand2
  match opcode with
  | .SUB | .CMP =>
    let alu_result : Int := op1 - op2
    let v_output := is_bit_set ((operand1 ^^^ operand2) &&& (bnot32 operand2 ^^^ toU32 alu_result)) 31
    let c_output := decide (toU32 op2 ≤ toU32 op1)
    some (toU32 alu_result, c_output, v_output)
  | .RSB =>
    let alu_result : Int := op2 - op1
    let v_output := is_bit_set ((operand2 ^^^ operand1) &&& (bnot32 operand1 ^^^ toU32 alu_result)) 31
    let c_output := decide (toU32 op1 ≤ toU32 op2)
    some (toU32 alu_result, c_output, v_output)
  | .ADD | .CMN =>
    let alu_result : Int := op1 + op2
    let v_output := is_bit_set ((operand2 ^^^ bnot32 operand1) &&& (operand1 ^^^ toU32 alu_result)) 31
    let c_output := decide (operand1 + operand2 > 0xffffffff)
    some (toU32 alu_result, c_output, v_output)
  | .ADC =>
    let alu_result : Int := op1 + op2 + c_in
    let v_output := is_bit_set ((operand2 ^^^ bnot32 operand1) &&& (operand1 ^^^ toU32 alu_result)) 31
    let c_output := decide (operand1 + operand2 + c_in_u > 0xffffffff)
    some (toU32 alu_result, c_output, v_output)
  | .SBC =>
    let alu_result : Int := op1 - op2 + c_in - 1
    let v_output := is_bit_set ((operand1 ^^^ operand2) &&& (bnot32 operand2 ^^^ toU32 alu_result)) 31
    let c_output := decide (operand2 + 1 - c_in_u ≤ operand1)
    some (toU32 alu_result, c_output, v_output)
  | .RSC =>
    let alu_result : Int := op2 - op1 + c_in - 1
    let c_output := decide (operand1 + 1 - c_in_u ≤ operand2)
    let v_output := is_bit_set ((operand2 ^^^ operand1) &&& (bnot32 operand1 ^^^ toU32 alu_result)) 31
    some (toU32 alu_result, c_output, v_output)
  | _ => none

/-- `ARM7TDMI::alu_operation`, revised version (instruction.rs, lines
426-451): logical opcodes are computed directly with `(result, false, false)`,
arithmetic opcodes delegate to `alu`. -/
def alu_operation (rf : RegisterFile) (operand1 operand2 : Nat)
    (opcode : ArmAluOpcode) : Option (Nat × Bool × Bool) :=
  match opcode with
  | .AND => some (operand1 &&& operand2, false, false)
  | .EOR => some (operand1 ^^^ operand2, false, false)
  | .SUB => alu rf operand1 operand2 .SUB
  | .RSB => alu rf operand1 operand2 .RSB
  | .ADD => alu rf operand1 operand2 .ADD
  | .ADC => alu rf operand1 operand2 .ADC
  | .SBC => alu rf operand1 operand2 .SBC
  | .RSC => alu rf operand1 operand2 .RSC
  | .TST => some (operand1 &&& operand2, false, false)
  | .TEQ => some (operand1 ^^^ operand2, false, false)
  | .CMP => alu rf operand1 operand2 .CMP
  | .CMN => alu rf operand1 operand2 .CMN
  | .ORR => some (operand1 ||| operand2, false, false)
  | .MOV => some (operand2, false, false)
  | .BIC => some (operand1 &&& bnot32 operand2, false, false)
  | .MNV => some (bnot32 operand2, false, false)

/-- `ARM7TDMI::update_flags` (instruction.rs, lines 463-489): write N/Z plus
C (logical: from the shifter) or C and V (arithmetic) when `rd ≠ 15`; when
`rd = 15` the instruction restores cpsr from the current spsr (`none` models
the spsr panic in a non-privileged mode and the assert on the cpsr write). -/
def update_flags (rf : RegisterFile) (alu_result : Nat) (opcode : ArmAluOpcode)
    (rd : Nat) (carry_output carry_shifter v_output : Bool) :
    Option RegisterFile :=
  if rd ≠ 15 then
    let rf := rf.write_z (alu_result = 0)
    let rf := rf.write_n (is_bit_set alu_result 31)
    if ArmAluOpcode.is_logical opcode then some (rf.write_c carry_shifter)
    else if ArmAluOpcode.is_arithmetic opcode then
      some ((rf.write_c carry_output).write_v v_output)
    else some rf
  else
    match rf.get_spsr with
    | none => none
    | some current_spsr =>
      let res := rf.write_cpsr current_spsr
      if res.2 then some res.1 else none

/-- `ARM7TDMI::alu`, earlier revision (mod.rs, lines 291-345): the result is
computed on sign-extended i64 operands, the carry flag is taken as bit 32 of
the 64-bit two's complement of the result, and overflow from sign
comparisons.  Note the operand swap for RSB/ADD/CMN/ADC/SBC/RSC (`op1` is
built from `operand2`).  `none` models the panic on a non-arithmetic
opcode. -/
def alu_old (rf : RegisterFile) (operand1 operand2 : Nat)
    (opcode : ArmAluOpcode) : Option (Nat × Bool × Bool) :=
  let c_in : Int := if rf.is_flag_set .C then 1 else 0
  match opcode with
  | .SUB | .CMP =>
    let op1 : Int := signExt32 operand1
    let op2 : Int := signExt32 operand2
    let alu_result : Int := op1 - op2
    let v_output := decide ((op1 ≥ 0 ∧ op2 < 0 ∧ alu_result < 0)
      ∨ (op1 < 0 ∧ op2 ≥ 0 ∧ alu_result ≥ 0))
    some (toU32 alu_result, is_bit_set (toU64 alu_result) 32, v_output)
  | .RSB =>
    let op1 : Int := signExt32 operand2
    let op2 : Int := signExt32 operand1
    let alu_result : Int := op1 - op2
    let v_output := decide ((op1 ≥ 0 ∧ op2 < 0 ∧ alu_result < 0)
      ∨ (op1 < 0 ∧ op2 ≥ 0 ∧ alu_result ≥ 0))
    some (toU32 alu_result, is_bit_set (toU64 alu_result) 32, v_output)
  | .ADD | .CMN =>
    let op1 : Int := signExt32 operand2
    let op2 : Int := signExt32 operand1
    let alu_result : Int := op1 + op2
    let v_output := decide ((op1 ≥ 0 ∧ op2 ≥ 0 ∧ alu_result < 0)
      ∨ (op1 < 0 ∧ op2 < 0 ∧ alu_result ≥ 0))
    some (toU32 alu_result, is_bit_set (toU64 alu_result) 32, v_output)
  | .ADC =>
    let op1 : Int := signExt32 operand2
    let op2 : Int := signExt32 operand1
    let alu_result : Int := op1 + op2 + c_in
    let v_output := decide ((op1 ≥ 0 ∧ op2 ≥ 0 ∧ alu_result < 0)
      ∨ (op1 < 0 ∧ op2 < 0 ∧ alu_result ≥ 0))
    some (toU32 alu_result, is_bit_set (toU64 alu_result) 32, v_output)
  | .SBC =>
    let op1 : Int := signExt32 operand2
    let op2 : Int := signExt32 operand1
    let alu_result : Int := op1 - op2 + c_in - 1
    let v_output := decide ((op1 ≥ 0 ∧ op2 < 0 ∧ alu_result < 0)
      ∨ (op1 < 0 ∧ op2 ≥ 0 ∧ alu_result ≥ 0))
    some (toU32 alu_result, is_bit_set (toU64 alu_result) 32, v_output)
  | .RSC =>
    let op1 : Int := signExt32 operand2
    let op2 : Int := signExt32 operand1
    let alu_result : Int := op2 - op1 + c_in - 1
    let v_output := decide ((op1 ≥ 0 ∧ op2 < 0 ∧ alu_result < 0)
      ∨ (op1 < 0 ∧ op2 ≥ 0 ∧ alu_result ≥ 0))
    some (toU32 alu_result, is_bit_set (toU64 alu_result) 32, v_output)
  | _ => none

/-- The documented signed-overflow formula for additions (spec §4.3):
bit 31 of `(b ⊕ ¬a) & (a ⊕ r)` where `r` is the 32-bit result. -/
def add_overflow_formula (a b r : Nat) : Bool :=
  is_bit_set ((b ^^^ bnot32 a) &&& (a ^^^ r)) 31

/-- The documented signed-overflow formula for subtractions (spec §4.3):
bit 31 of `(a ⊕ b) & (¬b ⊕ r)` where `r` is the 32-bit result. -/
def sub_overflow_formula (a b r : Nat) : Bool :=
  is_bit_set ((a ^^^ b) &&& (bnot32 b ^^^ r)) 31

/-! ### Instruction decoder -/

/-- `instruction::ArmInstructionType`: the instruction classes of the 32-bit
instruction set. -/
inductive ArmInstructionType where
  | DataProcessing
  | Multiply
  | SingleDataSwap
  | BranchAndExchange
  | HwTransfer
  | SingleDataTransfer
  | Undefined
  | BlockDataTransfer
  | Branch
  | CoprocessorDataTransfer
  | CoprocessorDataOperation
  | CoprocessorRegisterTransfer
  | SoftwareInterrupt
  | Unimplemented
  | PsrTransferMRS
  | PsrTransferMSR
deriving DecidableEq, Repr

/-- `instruction::decode_arm` (instruction.rs, lines 159-233): classify a
32-bit word by priority-ordered mask/pattern matching.  The hexadecimal
constants are the binary mask/format literals of the source. -/
def decode_arm (data : Nat) : ArmInstructionType :=
  if data &&& 0x0FFFFFF0 = 0x012FFF10 then .BranchAndExchange
  else if data &&& 0x0E000000 = 0x08000000 then .BlockDataTransfer
  else if data &&& 0x0E000000 = 0x0A000000 then .Branch
  else if data &&& 0x0F000000 = 0x0F000000 then .SoftwareInterrupt
  else if data &&& 0x0E000010 = 0x06000010 then .Undefined
  else if data &&& 0x0C000000 = 0x04000000 then .SingleDataTransfer
  else if data &&& 0x0F800FF0 = 0x01000090 then .SingleDataSwap
  else if data &&& 0x0F0000F0 = 0x00000090 then .Multiply
  else if data &&& 0x0E000090 = 0x00000090 then .HwTransfer
  else if data &&& 0x0FBF0000 = 0x010F0000 then .PsrTransferMRS
  else if data &&& 0x0DB0F000 = 0x0120F000 then .PsrTransferMSR
  else if data &&& 0x0C000000 = 0x00000000 then .DataProcessing
  else .Unimplemented

/-- First-match classification over a list of (mask, pattern, class) rows;
a word matching no row is `Unimplemented`.  This is the specification shape
of the decoder (spec §4.2). -/
def first_match : List (Nat × Nat × ArmInstructionType) → Nat → ArmInstructionType
  | [], _ => .Unimplemented
  | (mask, pattern, t) :: rest, data =>
    if data &&& mask = pattern then t else first_match rest data

/-- The decoder's documented priority table (spec §4.2): branch-and-exchange,
block-data-transfer, branch, software-interrupt, undefined,
single-data-transfer, single-data-swap, multiply, half-word-transfer,
PSR-transfer MRS, PSR-transfer MSR, data-processing. -/
def arm_decode_priority_table : List (Nat × Nat × ArmInstructionType) :=
  [ (0x0FFFFFF0, 0x012FFF10, .BranchAndExchange)
  , (0x0E000000, 0x08000000, .BlockDataTransfer)
  , (0x0E000000, 0x0A000000, .Branch)
  , (0x0F000000, 0x0F000000, .SoftwareInterrupt)
  , (0x0E000010, 0x06000010, .Undefined)
  , (0x0C000000, 0x04000000, .SingleDataTransfer)
  , (0x0F800FF0, 0x01000090, .SingleDataSwap)
  , (0x0F0000F0, 0x00000090, .Multiply)
  , (0x0E000090, 0x00000090, .HwTransfer)
  , (0x0FBF0000, 0x010F0000, .PsrTransferMRS)
  , (0x0DB0F000, 0x0120F000, .PsrTransferMSR)
  , (0x0C000000, 0x00000000, .DataProcessing) ]

/-! ### Barrel shifter -/

/-- `instruction::ArmAluShiftCodes`: the four shift kinds. -/
inductive ArmAluShiftCodes where
  | LSL
  | LSR
  | ASR
  | ROR
deriving DecidableEq, Repr

/-- `num::FromPrimitive::from_u32` for `ArmAluShiftCodes`; `none` leads to
the "Invalid shift type" panic in the source. -/
def ArmAluShiftCodes.from_u32 (t : Nat) : Option ArmAluShiftCodes :=
  if t = 0 then some .LSL
  else if t = 1 then some .LSR
  else if t = 2 then some .ASR
  else if t = 3 then some .ROR
  else none

/-- Rust `u32::rotate_right` (rotation amount is taken mod 32). -/
def rotate_right32 (v n : Nat) : Nat :=
  ((v >>> (n % 32)) ||| (v <<< ((32 - n % 32) % 32))) % u32size

/-- Rust `(v as i32).wrapping_shr(a) as u32`: 32-bit arithmetic shift right
(floor division of the sign-extended value); call sites have `a < 32`. -/
def asr32 (v a : Nat) : Nat := toU32 (Int.fdiv (signExt32 v) ((2 : Int) ^ (a % 32)))

/-- `instruction::barrel_shifter` (instruction.rs, lines 250-356): the shift
unit with all corner cases.  Returns (result, carry out, a shift happened).
The mutable-variable initialisation of the source (`result = operand`,
`carry = old_c`, `there_is_shift = true`) appears here as the tuples each
branch returns. -/
def barrel_shifter (operand : Nat) (shift_type : ArmAluShiftCodes)
    (shift_amount : Nat) (old_c : Bool) (is_register : Bool) :
    Nat × Bool × Bool :=
  match shift_type with
  | .LSL =>
    if shift_amount = 0 then (operand, old_c, false)
    else if shift_amount < 32 then
      ((operand <<< shift_amount) % u32size, is_bit_set operand (32 - shift_amount), true)
    else if shift_amount = 32 then (0, is_bit_set operand 0, true)
    else (0, false, true)
  | .LSR =>
    if shift_amount = 0 ∧ is_register then (operand, old_c, false)
    else if shift_amount = 32 ∨ (shift_amount = 0 ∧ ¬ is_register) then
      (0, is_bit_set operand 31, true)
    else if shift_amount < 32 then
      (operand >>> shift_amount, is_bit_set operand (shift_amount - 1), true)
    else (0, false, true)
  | .ASR =>
    if shift_amount = 0 ∧ is_register then (operand, old_c, false)
    else if 32 ≤ shift_amount ∨ (shift_amount = 0 ∧ ¬ is_register) then
      let carry := is_bit_set operand 31
      ((if carry then 0xFFFFFFFF else 0), carry, true)
    else (asr32 operand shift_amount, is_bit_set operand (shift_amount - 1), true)
  | .ROR =>
    if shift_amount = 0 then
      if is_register then (operand, old_c, false)
      else
        ((if old_c then set_bit (operand >>> 1) 31 else clear_bit (operand >>> 1) 31),
          is_bit_set operand 0, true)
    else
      let shift_amount := shift_amount % 32
      if shift_amount = 0 then (operand, is_bit_set operand 31, true)
      else (rotate_right32 operand shift_amount, is_bit_set operand (shift_amount - 1), true)

/-- `barrel_shifter` with the raw 2-bit shift-type field, as the execution
handlers call it; `none` models the "Invalid shift type" panic. -/
def barrel_shifter_num (operand t shift_amount : Nat) (old_c is_register : Bool) :
    Option (Nat × Bool × Bool) :=
  (ArmAluShiftCodes.from_u32 t).map
    (fun st => barrel_shifter operand st shift_amount old_c is_register)

/-- The documented corner-case table of the shifter (spec §4.3), written
column by column: amount 0 (immediate- or register-specified), amount 1..31
(a plain shift), amount 32, amount above 32. -/
def barrel_shifter_table (operand : Nat) (shift_type : ArmAluShiftCodes)
    (shift_amount : Nat) (old_c : Bool) (is_register : Bool) :
    Nat × Bool × Bool :=
  match shift_type with
  | .LSL =>
    -- amount 0: no shift, carry unchanged, for both columns
    if shift_amount = 0 then (operand, old_c, false)
    else if shift_amount < 32 then
      ((operand <<< shift_amount) % u32size, is_bit_set operand (32 - shift_amount), true)
    else if shift_amount = 32 then (0, is_bit_set operand 0, true)
    else (0, false, true)
  | .LSR =>
    -- amount 0: register-specified is a no-op (treated as LSL#0),
    -- immediate-specified gives result 0 with carry = bit 31
    if shift_amount = 0 then
      if is_register then (operand, old_c, false)
      else (0, is_bit_set operand 31, true)
    else if shift_amount < 32 then
      (operand >>> shift_amount, is_bit_set operand (shift_amount - 1), true)
    else if shift_amount = 32 then (0, is_bit_set operand 31, true)
    else (0, false, true)
  | .ASR =>
    -- amount 0 register-specified: no shift; immediate-specified and any
    -- amount of 32 or above: sign-fill with carry = bit 31
    if shift_amount = 0 then
      if is_register then (operand, old_c, false)
      else ((if is_bit_set operand 31 then 0xFFFFFFFF else 0), is_bit_set operand 31, true)
    else if shift_amount < 32 then
      (asr32 operand shift_amount, is_bit_set operand (shift_amount - 1), true)
    else ((if is_bit_set operand 31 then 0xFFFFFFFF else 0), is_bit_set operand 31, true)
  | .ROR =>
    -- amount 0 register-specified: no shift; immediate-specified: RRX;
    -- otherwise rotate by amount % 32, and when that is 0 (amount 32 or a
    -- larger multiple of 32) only the carry is set from bit 31
    if shift_amount = 0 then
      if is_register then (operand, old_c, false)
      else
        ((if old_c then set_bit (operand >>> 1) 31 else clear_bit (operand >>> 1) 31),
          is_bit_set operand 0, true)
    else if shift_amount % 32 = 0 then (operand, is_bit_set operand 31, true)
    else
      (rotate_right32 operand (shift_amount % 32), is_bit_set operand (shift_amount % 32 - 1), true)

/-! ### Bus interface types (bus/mod.rs) -/

/-- `bus::BusSignal`: a one-bit bus signal. -/
inductive BusSignal where
  | HIGH
  | LOW
deriving DecidableEq, Repr

/-- `bus::TransferSize`. -/
inductive TransferSize where
  | BYTE
  | HALFWORD
  | WORD
deriving DecidableEq, Repr

/-- `bus::BusCycle`. -/
inductive BusCycle where
  | NONSEQUENTIAL
  | SEQUENTIAL
  | INTERNAL
  | COPROCESSOR
deriving DecidableEq, Repr

/-- `bus::MemoryRequest`: the request the CPU produces every clock. -/
structure MemoryRequest where
  address : Nat
  data : Nat
  nr_w : BusSignal
  mas : TransferSize
  n_opc : BusSignal
  n_trans : BusSignal
  lock : BusSignal
  t_bit : BusSignal
  bus_cycle : BusCycle
deriving DecidableEq, Repr

/-- `bus::MemoryResponse`: the response the CPU consumes every clock. -/
structure MemoryResponse where
  data : Nat
  n_wait : BusSignal
deriving DecidableEq, Repr

/-- `arm7_tdmi::NOP` (mod.rs): 0xE1A00000. -/
def NOP : Nat := 0xE1A00000

/-- `arm7_tdmi::InstructionStep` (mod.rs): the per-instruction FSM state. -/
inductive InstructionStep where
  | STEP0
  | STEP1
  | STEP2
  | STEP3
  | STEP4
deriving DecidableEq, Repr

/-- Rust `u32::wrapping_add`. -/
def wadd (a b : Nat) : Nat := (a + b) % u32size

/-- Rust `u32::wrapping_sub`; both operands are below 2^32 in every state the
embedded code builds, where this is exact. -/
def wsub (a b : Nat) : Nat := (a % u32size + (u32size - b % u32size)) % u32size

/-! ### The earlier revision of the CPU driver (mod.rs) -/

/-- The `arm7_tdmi::ARM7TDMI` struct of the earlier revision (mod.rs,
lines 49-57). -/
structure ARM7TDMIOld where
  rf : RegisterFile
  arm_instruction_queue : List Nat
  arm_current_execute : Nat
  instruction_step : InstructionStep
  data_is_fetch : Bool
  data_is_reading : Bool
  last_used_address : Nat
deriving DecidableEq, Repr

/-- The earlier revision's one-argument `RegisterFile::get_register`, called
throughout mod.rs: a plain banked read with no pc bias (the old mod.rs adds
the pipeline offsets at its call sites).  Modelled as the in-src
`get_register` with a zero increment. -/
def get_register_old (rf : RegisterFile) (index : Nat) : Option Nat :=
  rf.get_register index 0

/-- Modelled from the spec: the earlier revision's 4-argument
`instruction::barrel_shifter` called from mod.rs (lines 221-226 and 548-553)
is not under src/ (src/ holds only the revised 5-argument unit).  Spec §4.3
documents the shifter columns; without the register/immediate distinction the
old unit behaves as the immediate-specified column, so it is modelled as the
revised shifter with `is_register = false`. -/
def barrel_shifter_old (operand shift_type shift_amount : Nat) (old_c : Bool) :
    Option (Nat × Bool × Bool) :=
  barrel_shifter_num operand shift_type shift_amount old_c false

/-- `ARM7TDMI::update_flags` of the earlier revision (mod.rs, lines 395-421);
its body is textually identical to the revised `update_flags`. -/
def update_flags_old (rf : RegisterFile) (alu_result : Nat)
    (opcode : ArmAluOpcode) (rd : Nat)
    (carry_output carry_shifter v_output : Bool) : Option RegisterFile :=
  update_flags rf alu_result opcode rd carry_output carry_shifter v_output

/-- `ARM7TDMI::alu_operation` of the earlier revision (mod.rs, lines
358-383): same dispatch as the revised one, delegating to the old `alu`. -/
def alu_operation_old (rf : RegisterFile) (operand1 operand2 : Nat)
    (opcode : ArmAluOpcode) : Option (Nat × Bool × Bool) :=
  match opcode with
  | .AND => some (operand1 &&& operand2, false, false)
  | .EOR => some (operand1 ^^^ operand2, false, false)
  | .SUB => alu_old rf operand1 operand2 .SUB
  | .RSB => alu_old rf operand1 operand2 .RSB
  | .ADD => alu_old rf operand1 operand2 .ADD
  | .ADC => alu_old rf operand1 operand2 .ADC
  | .SBC => alu_old rf operand1 operand2 .SBC
  | .RSC => alu_old rf operand1 operand2 .RSC
  | .TST => some (operand1 &&& operand2, false, false)
  | .TEQ => some (operand1 ^^^ operand2, false, false)
  | .CMP => alu_old rf operand1 operand2 .CMP
  | .CMN => alu_old rf operand1 operand2 .CMN
  | .ORR => some (operand1 ||| operand2, false, false)
  | .MOV => some (operand2, false, false)
  | .BIC => some (operand1 &&& bnot32 operand2, false, false)
  | .MNV => some (bnot32 operand2, false, false)

/-- `ARM7TDMI::arm_data_processing`, earlier revision (mod.rs, lines
157-278). -/
def arm_data_processing_old (s : ARM7TDMIOld) (req : MemoryRequest) :
    Option (ARM7TDMIOld × MemoryRequest) := do
  let rd := get_range s.arm_current_execute 15 12
  if s.instruction_step = .STEP0 then
    let opcode := ArmAluOpcode.from_value (get_range s.arm_current_execute 24 21)
    let s_flag := get_range s.arm_current_execute 20 20
    let i_flag := get_range s.arm_current_execute 25 25
    let condition := get_range s.arm_current_execute 31 28
    let rn := get_range s.arm_current_execute 19 16
    let shift_amount := get_range s.arm_current_execute 11 7
    let rs := get_range s.arm_current_execute 11 8
    let shift_type := get_range s.arm_current_execute 6 5
    let r_flag := get_range s.arm_current_execute 4 4
    let rm := get_range s.arm_current_execute 3 0
    let is := get_range s.arm_current_execute 11 8
    let nn := get_range s.arm_current_execute 7 0
    let operand1 ← get_register_old s.rf rn
    if ! s.rf.check_condition_code condition then
      return (s, req)
    let (operand1, operand2, carry_shifter, there_is_shift) ←
      (if i_flag = 1 then
        some (wadd operand1 (if rn = 15 then 8 else 0), rotate_right32 nn (is * 2),
          s.rf.is_flag_set .C, false)
      else do
        let operand2 ← get_register_old s.rf rm
        let (operand1, operand2, shift_amount) ←
          (if r_flag = 1 then
            if rs = 15 then none
            else do
              let rsv ← get_register_old s.rf rs
              some (wadd operand1 (if rn = 15 then 12 else 0),
                wadd operand2 (if rm = 15 then 12 else 0), get_range rsv 7 0)
          else
            some (wadd operand1 (if rn = 15 then 8 else 0),
              wadd operand2 (if rm = 15 then 8 else 0), shift_amount))
        let (operand2, carry_shifter, there_is_shift) ←
          barrel_shifter_old operand2 shift_type shift_amount (s.rf.is_flag_set .C)
        some (operand1, operand2, carry_shifter, there_is_shift))
    let (next_to_write, c_output, v_output) ←
      alu_operation_old s.rf operand1 operand2 opcode
    let rf ←
      if ! ArmAluOpcode.is_test_opcode opcode then s.rf.write_register rd next_to_write
      else some s.rf
    let rf ←
      if ArmAluOpcode.is_test_opcode opcode ∨ s_flag = 1 then
        update_flags_old rf next_to_write opcode rd c_output carry_shifter v_output
      else some rf
    let s := { s with rf := rf }
    if there_is_shift then
      return ({ s with data_is_fetch := false, instruction_step := .STEP1 },
        { req with bus_cycle := .INTERNAL })
    else if rd = 15 then
      return ({ s with arm_instruction_queue := [], data_is_fetch := false, instruction_step := .STEP2 },
        { req with bus_cycle := .NONSEQUENTIAL })
    else
      return (s, req)
  else if s.instruction_step = .STEP1 then
    if rd = 15 then
      return ({ s with arm_instruction_queue := [], data_is_fetch := false, instruction_step := .STEP2 },
        { req with bus_cycle := .NONSEQUENTIAL })
    else
      return ({ s with instruction_step := .STEP0 }, req)
  else if s.instruction_step = .STEP2 then
    let pc ← get_register_old s.rf 15
    return ({ s with instruction_step := .STEP3 }, { req with address := pc })
  else if s.instruction_step = .STEP3 then
    let pc ← get_register_old s.rf 15
    let rf ← s.rf.write_register 15 (wsub pc 4)
    return ({ s with rf := rf, instruction_step := .STEP0 },
      { req with address := wadd pc 4 })
  else none

/-- `ARM7TDMI::arm_branch_and_exchange`, earlier revision (mod.rs, lines
426-442): a passed condition at step 0 hits `todo` (modelled as `none`);
steps 1 and 2 are empty bodies. -/
def arm_branch_and_exchange_old (s : ARM7TDMIOld) (req : MemoryRequest) :
    Option (ARM7TDMIOld × MemoryRequest) := do
  let condition := get_range s.arm_current_execute 31 28
  if s.instruction_step = .STEP0 then
    if ! s.rf.check_condition_code condition then
      return (s, req)
    none
  else if s.instruction_step = .STEP1 then
    return (s, req)
  else if s.instruction_step = .STEP2 then
    return (s, req)
  else none

/-- `ARM7TDMI::arm_branch`, earlier revision (mod.rs, lines 450-491). -/
def arm_branch_old (s : ARM7TDMIOld) (req : MemoryRequest) :
    Option (ARM7TDMIOld × MemoryRequest) := do
  let condition := get_range s.arm_current_execute 31 28
  let opcode := get_range s.arm_current_execute 24 24
  let nn := get_range s.arm_current_execute 23 0
  let current_pc ← get_register_old s.rf 15
  if ! s.rf.check_condition_code condition then
    return (s, req)
  if s.instruction_step = .STEP0 then
    -- sign extension of the 24-bit immediate; the offset is `(nn as i32) << 2`
    let nn := nn ||| (if is_bit_set nn 23 then 0xFF000000 else 0)
    let offset : Int := signExt32 ((nn <<< 2) % u32size)
    let rf ←
      if opcode = 1 then s.rf.write_register 14 (wadd current_pc 4)
      else some s.rf
    let rf ← rf.write_register 15 (toU32 ((signExt32 current_pc) + 4 + offset))
    return ({ s with rf := rf, arm_instruction_queue := [], data_is_fetch := false, instruction_step := .STEP1 },
      { req with bus_cycle := .NONSEQUENTIAL })
  else if s.instruction_step = .STEP1 then
    return ({ s with instruction_step := .STEP2 }, { req with address := wadd current_pc 4 })
  else if s.instruction_step = .STEP2 then
    return ({ s with instruction_step := .STEP0 }, { req with address := wadd current_pc 8 })
  else none

/-- `ARM7TDMI::arm_single_data_transfer`, earlier revision (mod.rs, lines
500-644). -/
def arm_single_data_transfer_old (s : ARM7TDMIOld) (req : MemoryRequest)
    (rsp : MemoryResponse) : Option (ARM7TDMIOld × MemoryRequest) := do
  let condition := get_range s.arm_current_execute 31 28
  let l_flag := get_range s.arm_current_execute 20 20
  let rn := get_range s.arm_current_execute 19 16
  let rd := get_range s.arm_current_execute 15 12
  let p_flag := get_range s.arm_current_execute 24 24
  let tw_flag := get_range s.arm_current_execute 21 21
  let b_flag := get_range s.arm_current_execute 22 22
  if ! s.rf.check_condition_code condition then
    return (s, req)
  let (address_to_mem, req) ←
    (if s.instruction_step = .STEP1 then do
      let i_flag := get_range s.arm_current_execute 25 25
      let u_flag := get_range s.arm_current_execute 23 23
      let immediate := get_range s.arm_current_execute 11 0
      let shift_amount := get_range s.arm_current_execute 11 7
      let shift_type := get_range s.arm_current_execute 6 5
      let rm := get_range s.arm_current_execute 3 0
      let address_to_mem ← get_register_old s.rf rn
      let offset ←
        (if i_flag = 0 then some immediate
        else
          if rm = 15 then none
          else do
            let rmv ← get_register_old s.rf rm
            let (o, _, _) ← barrel_shifter_old rmv shift_type shift_amount (s.rf.is_flag_set .C)
            some o)
      let req :=
        if p_flag = 1 then
          { req with address := if u_flag = 1 then wadd address_to_mem offset
              else wsub address_to_mem offset }
        else
          if tw_flag = 1 then { req with n_trans := .LOW } else req
      let req := if b_flag = 1 then { req with mas := .BYTE } else req
      some (address_to_mem, req)
    else some (s.last_used_address, req))
  if l_flag = 1 then
    if s.instruction_step = .STEP0 then
      return ({ s with instruction_step := .STEP1 }, { req with bus_cycle := .NONSEQUENTIAL })
    else if s.instruction_step = .STEP1 then do
      let rf ←
        if p_flag = 0 ∨ tw_flag = 1 then s.rf.write_register rn address_to_mem
        else some s.rf
      return ({ s with rf := rf, data_is_fetch := false, instruction_step := .STEP2 },
        { req with bus_cycle := .INTERNAL })
    else if s.instruction_step = .STEP2 then do
      let offset := s.last_used_address % 4
      let data_to_write :=
        if b_flag = 1 then get_range rsp.data (offset * 8 + 7) (offset * 8)
        else rotate_right32 rsp.data (offset * 8)
      let rf ← s.rf.write_register rd data_to_write
      let s := { s with rf := rf, data_is_fetch := false }
      if rd = 15 then
        return ({ s with arm_instruction_queue := [], instruction_step := .STEP3 },
          { req with bus_cycle := .NONSEQUENTIAL })
      else
        return ({ s with instruction_step := .STEP0 }, { req with bus_cycle := .SEQUENTIAL })
    else if s.instruction_step = .STEP3 then do
      let pc ← get_register_old s.rf 15
      return ({ s with instruction_step := .STEP4 }, { req with address := pc })
    else if s.instruction_step = .STEP4 then do
      let pc ← get_register_old s.rf 15
      let rf ← s.rf.write_register 15 (wsub pc 4)
      return ({ s with rf := rf, instruction_step := .STEP0 }, { req with address := wadd pc 4 })
    else none
  else
    if s.instruction_step = .STEP0 then
      return ({ s with instruction_step := .STEP1 }, { req with bus_cycle := .NONSEQUENTIAL })
    else if s.instruction_step = .STEP1 then do
      let data ← get_register_old s.rf rd
      let data :=
        if b_flag = 1 then
          (data &&& 0xff) ||| ((data &&& 0xff) <<< 8) ||| ((data &&& 0xff) <<< 16)
            ||| ((data &&& 0xff) <<< 24)
        else data
      return ({ s with data_is_reading := false, instruction_step := .STEP0 },
        { req with data := data, nr_w := .HIGH })
    else none

/-- `ARM7TDMI::step`, earlier revision (mod.rs, lines 81-149): build the
generic opcode-fetch request; if the bus asserts wait (`n_wait` LOW) return
it at once with no state change; otherwise push a fetched word, dispatch on
the decoded current instruction, retire it when its FSM is back at step 0
(popping the queue and advancing the pc), and memo the issued address.
Classes whose handler is a `todo` in this revision are `none`. -/
def step_old (s : ARM7TDMIOld) (rsp : MemoryResponse) :
    Option (ARM7TDMIOld × MemoryRequest) := do
  let pc15 ← get_register_old s.rf 15
  let next_request : MemoryRequest :=
    { address := wadd pc15 8
      nr_w := .LOW
      mas := .WORD
      n_opc := .LOW
      data := 0
      n_trans := if s.rf.get_mode = .USER then .LOW else .HIGH
      lock := .LOW
      t_bit := .LOW
      bus_cycle := .SEQUENTIAL }
  if rsp.n_wait = .LOW then
    return (s, next_request)
  let s :=
    if s.data_is_reading ∧ s.data_is_fetch then
      { s with arm_instruction_queue := s.arm_instruction_queue ++ [rsp.data] }
    else s
  let s := { s with data_is_reading := true, data_is_fetch := true }
  let (s, next_request) ←
    (match decode_arm s.arm_current_execute with
    | .DataProcessing => arm_data_processing_old s next_request
    | .BranchAndExchange => arm_branch_and_exchange_old s next_request
    | .SingleDataTransfer => arm_single_data_transfer_old s next_request rsp
    | .Branch => arm_branch_old s next_request
    | _ => none)
  let s ←
    (if s.instruction_step = .STEP0 then
      match s.arm_instruction_queue with
      | [] => none
      | w :: rest => do
        let pc ← get_register_old s.rf 15
        let rf ← s.rf.write_register 15 (wadd pc 4)
        some { s with arm_current_execute := w, arm_instruction_queue := rest, rf := rf }
    else some s)
  return ({ s with last_used_address := next_request.address }, next_request)

/-- The generic opcode-fetch request the stalled `step` returns: address is
the stored pc plus 8, a privileged sequential word opcode read. -/
def stall_request (s : ARM7TDMIOld) : MemoryRequest :=
  { address := wadd (s.rf.registers.getD 15 0 % u32size) 8
    nr_w := .LOW
    mas := .WORD
    n_opc := .LOW
    data := 0
    n_trans := if s.rf.get_mode = .USER then .LOW else .HIGH
    lock := .LOW
    t_bit := .LOW
    bus_cycle := .SEQUENTIAL }

/-! ### The revised execution engine (arm_instructions.rs)

The revised `ARM7TDMI` struct itself is not under src/ (src/ keeps the
earlier mod.rs); its fields are the ones the revised handlers in
arm_instructions.rs read and write. -/

/-- The CPU state operated on by the revised handlers: the register file, the
prefetch queue, the in-flight instruction, its FSM step, the fetch marker,
the memoised bus address, the per-class cycle counter (multiply and block
transfers) and the block-transfer (address, register) list. -/
structure ARM7TDMI where
  rf : RegisterFile
  arm_instruction_queue : List Nat
  arm_current_execute : Nat
  instruction_step : InstructionStep
  data_is_fetch : Bool
  last_used_address : Nat
  instruction_counter_step : Nat
  list_transfer_op : List (Nat × Nat)
deriving DecidableEq, Repr

/-- Modelled from the spec: `RegisterFile::get_user_register` (called at
arm_instructions.rs line 1149) is not under src/.  Spec §4.4 states the
S-flagged block transfer reads the user bank, so this reads the unbanked user
copies regardless of the current mode, with the r15 increment of
`get_register`. -/
def RegisterFile.get_user_register (rf : RegisterFile) (index pc_increment : Nat) :
    Option Nat :=
  if index ≤ 14 then some (rf.registers.getD index 0)
  else if index = 15 then some ((rf.registers.getD 15 0 + pc_increment) % u32size)
  else none

/-- Modelled from the spec: `RegisterFile::write_user_register` (called at
arm_instructions.rs line 1206) is not under src/.  Spec §4.4 states the
S-flagged block transfer writes the user bank, so this writes the unbanked
user copies regardless of the current mode. -/
def RegisterFile.write_user_register (rf : RegisterFile) (index value : Nat) :
    Option RegisterFile :=
  if index ≤ 15 then some { rf with registers := rf.registers.set index value }
  else none

/-- Rust `(x as i8) as i32 as u32` for a byte value `x`: sign extension from
8 bits into a 32-bit word. -/
def sign_extend_8 (x : Nat) : Nat :=
  toU32 (if is_bit_set x 7 then (x : Int) - 256 else (x : Int))

/-- Rust `(x as i16) as i32 as u32` for a halfword value `x`: sign extension
from 16 bits into a 32-bit word. -/
def sign_extend_16 (x : Nat) : Nat :=
  toU32 (if is_bit_set x 15 then (x : Int) - 65536 else (x : Int))

/-- Rust `(x as i64)` for a u64 value `x`. -/
def signExt64 (x : Nat) : Int :=
  if x.testBit 63 then (x : Int) - 18446744073709551616 else (x : Int)

/-- Rust `u32::leading_zeros` (for values below 2^32). -/
def u32_leading_zeros (x : Nat) : Nat := 32 - x.size

/-- Rust `u32::count_ones` (for values below 2^32). -/
def count_ones32 (x : Nat) : Nat :=
  ((List.range 32).filter (fun i => x.testBit i)).length

/-- `ARM7TDMI::arm_data_processing`, revised (arm_instructions.rs, lines
16-142). -/
def arm_data_processing (s : ARM7TDMI) (req : MemoryRequest) :
    Option (ARM7TDMI × MemoryRequest) := do
  let rd := get_range s.arm_current_execute 15 12
  let s_flag := get_range s.arm_current_execute 20 20
  let opcode := ArmAluOpcode.from_value (get_range s.arm_current_execute 24 21)
  if s.instruction_step = .STEP0 then
    let i_flag := get_range s.arm_current_execute 25 25
    let condition := get_range s.arm_current_execute 31 28
    let rn := get_range s.arm_current_execute 19 16
    let shift_amount := get_range s.arm_current_execute 11 7
    let rs := get_range s.arm_current_execute 11 8
    let shift_type := get_range s.arm_current_execute 6 5
    let r_flag := get_range s.arm_current_execute 4 4
    let rm := get_range s.arm_current_execute 3 0
    let is := get_range s.arm_current_execute 11 8
    let nn := get_range s.arm_current_execute 7 0
    let operand1 ← s.rf.get_register rn 8
    let operand2 ← s.rf.get_register rm 8
    if ! s.rf.check_condition_code condition then
      return (s, req)
    let (operand1, operand2, carry_shifter, there_is_shift) ←
      (if i_flag = 1 then
        let carry_shifter :=
          if is = 0 then s.rf.is_flag_set .C else is_bit_set nn (is * 2 - 1)
        some (operand1, rotate_right32 nn (is * 2), carry_shifter, false)
      else do
        let (operand1, operand2, shift_amount) ←
          (if r_flag = 1 then
            if rs = 15 then none
            else do
              let rsv ← s.rf.get_register rs 0
              let o1 ← s.rf.get_register rn 12
              let o2 ← s.rf.get_register rm 12
              some (o1, o2, get_range rsv 7 0)
          else some (operand1, operand2, shift_amount))
        let (operand2, carry_shifter, there_is_shift) ←
          barrel_shifter_num operand2 shift_type shift_amount (s.rf.is_flag_set .C)
            (r_flag = 1)
        some (operand1, operand2, carry_shifter, there_is_shift))
    let (next_to_write, c_output, v_output) ←
      alu_operation s.rf operand1 operand2 opcode
    let rf ←
      if ! ArmAluOpcode.is_test_opcode opcode then s.rf.write_register rd next_to_write
      else some s.rf
    let rf ←
      if ArmAluOpcode.is_test_opcode opcode ∨ s_flag = 1 then
        update_flags rf next_to_write opcode rd c_output carry_shifter v_output
      else some rf
    let s := { s with rf := rf }
    if there_is_shift then
      return ({ s with data_is_fetch := false, instruction_step := .STEP1 },
        { req with bus_cycle := .INTERNAL })
    else if rd = 15 ∧ ! ArmAluOpcode.is_test_opcode opcode then
      return ({ s with arm_instruction_queue := [], data_is_fetch := false, instruction_step := .STEP2 },
        { req with bus_cycle := .NONSEQUENTIAL })
    else
      return (s, req)
  else if s.instruction_step = .STEP1 then
    if rd = 15 ∧ ! ArmAluOpcode.is_test_opcode opcode then
      return ({ s with arm_instruction_queue := [], data_is_fetch := false, instruction_step := .STEP2 },
        { req with bus_cycle := .NONSEQUENTIAL })
    else
      return ({ s with instruction_step := .STEP0 }, req)
  else if s.instruction_step = .STEP2 then
    let pc ← s.rf.get_register 15 0
    return ({ s with instruction_step := .STEP3 }, { req with address := pc })
  else if s.instruction_step = .STEP3 then
    let rf ←
      (if s_flag = 1 then do
        let current_spsr ← s.rf.get_spsr
        some (s.rf.write_cpsr current_spsr).1
      else some s.rf)
    let pc4 ← rf.get_register 15 4
    let pc0 ← rf.get_register 15 0
    let rf ← rf.write_register 15 (wsub pc0 4)
    return ({ s with rf := rf, instruction_step := .STEP0 }, { req with address := pc4 })
  else none

/-- `ARM7TDMI::arm_branch_and_exchange`, revised (arm_instructions.rs, lines
151-204). -/
def arm_branch_and_exchange (s : ARM7TDMI) (req : MemoryRequest)
    (rsp : MemoryResponse) : Option (ARM7TDMI × MemoryRequest) := do
  let condition := get_range s.arm_current_execute 31 28
  let rn := get_range s.arm_current_execute 3 0
  let da0 ← s.rf.get_register rn 8
  let use_thumb_mode := is_bit_set da0 0
  let destination_address := clear_bit da0 0
  if ! s.rf.check_condition_code condition then
    return (s, req)
  if s.instruction_step = .STEP0 then
    return ({ s with arm_instruction_queue := [], data_is_fetch := false, instruction_step := .STEP1 },
      { req with bus_cycle := .NONSEQUENTIAL })
  else if s.instruction_step = .STEP1 then
    return ({ s with data_is_fetch := false, instruction_step := .STEP2 },
      { req with mas := (if use_thumb_mode then .HALFWORD else .WORD)
                 address := destination_address
                 bus_cycle := .SEQUENTIAL })
  else if s.instruction_step = .STEP2 then
    if use_thumb_mode then do
      let queue := s.arm_instruction_queue ++
        [if is_bit_clear s.last_used_address 1 then get_range rsp.data 15 0
         else get_range rsp.data 31 16]
      let rf ← s.rf.write_register 15 (wsub destination_address 2)
      let rf := (rf.write_cpsr (set_bit rf.get_cpsr 5)).1
      return ({ s with arm_instruction_queue := queue, rf := rf, instruction_step := .STEP0 },
        { req with mas := .HALFWORD
                   address := wadd destination_address 2
                   bus_cycle := .SEQUENTIAL })
    else do
      let queue := s.arm_instruction_queue ++ [rsp.data]
      let rf ← s.rf.write_register 15 (wsub destination_address 4)
      let rf := (rf.write_cpsr (clear_bit rf.get_cpsr 5)).1
      return ({ s with arm_instruction_queue := queue, rf := rf, instruction_step := .STEP0 },
        { req with mas := .WORD
                   address := wadd destination_address 4
                   bus_cycle := .SEQUENTIAL })
  else none

/-- `ARM7TDMI::arm_branch`, revised (arm_instructions.rs, lines 212-255). -/
def arm_branch (s : ARM7TDMI) (req : MemoryRequest) :
    Option (ARM7TDMI × MemoryRequest) := do
  let condition := get_range s.arm_current_execute 31 28
  let opcode := get_range s.arm_current_execute 24 24
  let nn := get_range s.arm_current_execute 23 0
  let current_pc ← s.rf.get_register 15 0
  if ! s.rf.check_condition_code condition then
    return (s, req)
  if s.instruction_step = .STEP0 then
    -- sign extension of the 24-bit immediate; the offset is `(nn as i32) << 2`
    let nn := nn ||| (if is_bit_set nn 23 then 0xFF000000 else 0)
    let offset : Int := signExt32 ((nn <<< 2) % u32size)
    let rf ←
      if opcode = 1 then s.rf.write_register 14 (wadd current_pc 4)
      else some s.rf
    let rf ← rf.write_register 15 (toU32 ((signExt32 current_pc) + offset + 8))
    return ({ s with rf := rf, arm_instruction_queue := [], data_is_fetch := false, instruction_step := .STEP1 },
      { req with bus_cycle := .NONSEQUENTIAL })
  else if s.instruction_step = .STEP1 then
    return ({ s with instruction_step := .STEP2 }, { req with address := current_pc })
  else if s.instruction_step = .STEP2 then do
    let pc ← s.rf.get_register 15 0
    let rf ← s.rf.write_register 15 (wsub pc 4)
    return ({ s with rf := rf, instruction_step := .STEP0 },
      { req with address := wadd current_pc 4 })
  else none

/-- `ARM7TDMI::arm_single_data_transfer`, revised (arm_instructions.rs, lines
264-437). -/
def arm_single_data_transfer (s : ARM7TDMI) (req : MemoryRequest)
    (rsp : MemoryResponse) : Option (ARM7TDMI × MemoryRequest) := do
  let condition := get_range s.arm_current_execute 31 28
  let l_flag := get_range s.arm_current_execute 20 20
  let rn := get_range s.arm_current_execute 19 16
  let rd := get_range s.arm_current_execute 15 12
  let p_flag := get_range s.arm_current_execute 24 24
  let tw_flag := get_range s.arm_current_execute 21 21
  let b_flag := get_range s.arm_current_execute 22 22
  if ! s.rf.check_condition_code condition then
    return (s, req)
  let (address_to_write, req) ←
    (if s.instruction_step = .STEP1 then do
      let i_flag := get_range s.arm_current_execute 25 25
      let u_flag := get_range s.arm_current_execute 23 23
      let immediate := get_range s.arm_current_execute 11 0
      let shift_amount := get_range s.arm_current_execute 11 7
      let shift_type := get_range s.arm_current_execute 6 5
      let rm := get_range s.arm_current_execute 3 0
      let address_to_mem ← s.rf.get_register rn 8
      let offset ←
        (if i_flag = 0 then some immediate
        else
          if rm = 15 then none
          else do
            let rmv ← s.rf.get_register rm 0
            let (o, _, _) ←
              barrel_shifter_num rmv shift_type shift_amount (s.rf.is_flag_set .C) false
            some o)
      let address_to_write :=
        if u_flag = 1 then wadd address_to_mem offset else wsub address_to_mem offset
      let req := { req with address := address_to_mem }
      let req :=
        if p_flag = 1 then { req with address := address_to_write }
        else if tw_flag = 1 then { req with n_trans := .LOW }
        else req
      let req := if b_flag = 1 then { req with mas := .BYTE } else req
      some (address_to_write, req)
    else some (0, req))
  if l_flag = 1 then
    if s.instruction_step = .STEP0 then
      return ({ s with instruction_step := .STEP1 }, { req with bus_cycle := .NONSEQUENTIAL })
    else if s.instruction_step = .STEP1 then do
      let rf ←
        if p_flag = 0 ∨ tw_flag = 1 then s.rf.write_register rn address_to_write
        else some s.rf
      return ({ s with rf := rf, data_is_fetch := false, instruction_step := .STEP2 },
        { req with bus_cycle := .INTERNAL })
    else if s.instruction_step = .STEP2 then do
      let offset := s.last_used_address % 4
      let data_to_write :=
        if b_flag = 1 then get_range rsp.data (offset * 8 + 7) (offset * 8)
        else rotate_right32 rsp.data (offset * 8)
      let rf ← s.rf.write_register rd data_to_write
      let s := { s with rf := rf, data_is_fetch := false }
      if rd = 15 then
        return ({ s with arm_instruction_queue := [], instruction_step := .STEP3 },
          { req with bus_cycle := .NONSEQUENTIAL })
      else
        return ({ s with instruction_step := .STEP0 }, { req with bus_cycle := .SEQUENTIAL })
    else if s.instruction_step = .STEP3 then do
      let pc ← s.rf.get_register 15 0
      return ({ s with instruction_step := .STEP4 }, { req with address := pc })
    else if s.instruction_step = .STEP4 then do
      let pc4 ← s.rf.get_register 15 4
      let pc0 ← s.rf.get_register 15 0
      let rf ← s.rf.write_register 15 (wsub pc0 4)
      return ({ s with rf := rf, instruction_step := .STEP0 }, { req with address := pc4 })
    else none
  else
    if s.instruction_step = .STEP0 then
      return ({ s with instruction_step := .STEP1 }, { req with bus_cycle := .NONSEQUENTIAL })
    else if s.instruction_step = .STEP1 then do
      let data ← s.rf.get_register rd 12
      let data :=
        if b_flag = 1 then
          (data &&& 0xff) ||| ((data &&& 0xff) <<< 8) ||| ((data &&& 0xff) <<< 16)
            ||| ((data &&& 0xff) <<< 24)
        else data
      let rf ←
        if p_flag = 0 ∨ tw_flag = 1 then s.rf.write_register rn address_to_write
        else some s.rf
      return ({ s with rf := rf, data_is_fetch := false, instruction_step := .STEP0 },
        { req with data := data, nr_w := .HIGH })
    else none

/-- `ARM7TDMI::arm_hw_transfer`, revised (arm_instructions.rs, lines
447-665): halfword/signed transfers plus LDRD/STRD. -/
def arm_hw_transfer (s : ARM7TDMI) (req : MemoryRequest)
    (rsp : MemoryResponse) : Option (ARM7TDMI × MemoryRequest) := do
  let condition := get_range s.arm_current_execute 31 28
  let p_flag := get_range s.arm_current_execute 24 24
  let u_flag := get_range s.arm_current_execute 23 23
  let i_flag := get_range s.arm_current_execute 22 22
  let w_flag := get_range s.arm_current_execute 21 21
  let l_flag := get_range s.arm_current_execute 20 20
  let rn := get_range s.arm_current_execute 19 16
  let rd := get_range s.arm_current_execute 15 12
  let imm_offset_h := get_range s.arm_current_execute 11 8
  let opcode := get_range s.arm_current_execute 6 5
  let rm := get_range s.arm_current_execute 3 0
  if ! s.rf.check_condition_code condition then
    return (s, req)
  let address_to_mem ← s.rf.get_register rn 8
  if opcode = 0 then
    none
  else
  let (address_to_write, req) ←
    (if s.instruction_step = .STEP1 then do
      let offset ←
        (if i_flag = 1 then some ((imm_offset_h <<< 4) ||| rm)
        else
          if rm = 15 then none
          else s.rf.get_register rm 0)
      let address_to_write :=
        if u_flag = 1 then wadd address_to_mem offset else wsub address_to_mem offset
      some (address_to_write,
        { req with address := if p_flag = 1 then address_to_write else address_to_mem })
    else some (0, req))
  if l_flag = 1 then
    if s.instruction_step = .STEP0 then
      return ({ s with instruction_step := .STEP1 }, { req with bus_cycle := .NONSEQUENTIAL })
    else if s.instruction_step = .STEP1 then do
      let req := { req with bus_cycle := .INTERNAL
                            mas := if opcode = 2 then .BYTE else .HALFWORD }
      let rf ←
        if p_flag = 0 ∨ w_flag = 1 then s.rf.write_register rn address_to_write
        else some s.rf
      return ({ s with rf := rf, data_is_fetch := false, instruction_step := .STEP2 }, req)
    else if s.instruction_step = .STEP2 then do
      let offset := s.last_used_address % 4
      let data_to_write :=
        if opcode = 0b10 then
          sign_extend_8 (get_range rsp.data (offset * 8 + 7) (offset * 8))
        else
          let data_to_write :=
            if offset < 2 then get_range rsp.data 15 0 else get_range rsp.data 31 16
          let data_to_write :=
            if offset % 2 = 1 then rotate_right32 data_to_write 8 else data_to_write
          if opcode = 0b11 then
            if offset % 2 = 1 then
              sign_extend_8 (get_range rsp.data (offset * 8 + 7) (offset * 8))
            else sign_extend_16 data_to_write
          else data_to_write
      let rf ← s.rf.write_register rd data_to_write
      let s := { s with rf := rf, data_is_fetch := false }
      if rd = 15 then
        return ({ s with arm_instruction_queue := [], instruction_step := .STEP3 },
          { req with bus_cycle := .NONSEQUENTIAL })
      else
        return ({ s with instruction_step := .STEP0 }, { req with bus_cycle := .SEQUENTIAL })
    else if s.instruction_step = .STEP3 then do
      let pc ← s.rf.get_register 15 0
      return ({ s with instruction_step := .STEP4 }, { req with address := pc })
    else if s.instruction_step = .STEP4 then do
      let pc4 ← s.rf.get_register 15 4
      let pc0 ← s.rf.get_register 15 0
      let rf ← s.rf.write_register 15 (wsub pc0 4)
      return ({ s with rf := rf, instruction_step := .STEP0 }, { req with address := pc4 })
    else none
  else
    if opcode = 0b01 then
      if s.instruction_step = .STEP0 then
        return ({ s with instruction_step := .STEP1 }, { req with bus_cycle := .NONSEQUENTIAL })
      else if s.instruction_step = .STEP1 then do
        let data ← s.rf.get_register rd 12
        let data := (data &&& 0xffff) ||| ((data <<< 16) % u32size)
        let rf ←
          if p_flag = 0 ∨ w_flag = 1 then s.rf.write_register rn address_to_write
          else some s.rf
        return ({ s with rf := rf, data_is_fetch := false, instruction_step := .STEP0 },
          { req with mas := .HALFWORD, data := data, nr_w := .HIGH })
      else none
    else if opcode = 2 then
      if s.instruction_step = .STEP0 then
        return ({ s with instruction_step := .STEP1 }, { req with bus_cycle := .NONSEQUENTIAL })
      else if s.instruction_step = .STEP1 then
        if req.address % 8 ≠ 0 then none
        else if rd % 2 ≠ 0 ∨ rd = 14 then none
        else return ({ s with data_is_fetch := false, instruction_step := .STEP2 }, req)
      else if s.instruction_step = .STEP2 then do
        let rf ← s.rf.write_register rd rsp.data
        return ({ s with rf := rf, data_is_fetch := false, instruction_step := .STEP3 },
          { req with bus_cycle := .INTERNAL, address := s.last_used_address + 4 })
      else if s.instruction_step = .STEP3 then do
        let rf ← s.rf.write_register (rd + 1) rsp.data
        return ({ s with rf := rf, data_is_fetch := false, instruction_step := .STEP0 }, req)
      else none
    else if opcode = 3 then
      if s.instruction_step = .STEP0 then
        return ({ s with instruction_step := .STEP1 }, { req with bus_cycle := .NONSEQUENTIAL })
      else if s.instruction_step = .STEP1 then do
        let data ← s.rf.get_register rd 0
        return ({ s with data_is_fetch := false, instruction_step := .STEP2 },
          { req with data := data, nr_w := .HIGH })
      else if s.instruction_step = .STEP2 then do
        let data ← s.rf.get_register (rd + 1) 0
        return ({ s with data_is_fetch := false, instruction_step := .STEP0 },
          { req with address := s.last_used_address + 4, data := data, nr_w := .HIGH })
      else none
    else
      -- opcode is 0..3 and 0 was rejected above; this arm mirrors the
      -- fall-through of the source's if chain (nothing happens)
      return (s, req)

/-- `ARM7TDMI::arm_swi` (arm_instructions.rs, lines 673-718). -/
def arm_swi (s : ARM7TDMI) (req : MemoryRequest) :
    Option (ARM7TDMI × MemoryRequest) := do
  let condition := get_range s.arm_current_execute 31 28
  if ! s.rf.check_condition_code condition then
    return (s, req)
  if s.instruction_step = .STEP0 then
    return ({ s with arm_instruction_queue := [], data_is_fetch := false, instruction_step := .STEP1 },
      { req with bus_cycle := .NONSEQUENTIAL })
  else if s.instruction_step = .STEP1 then do
    let current_cpsr := s.rf.get_cpsr
    let res := s.rf.write_cpsr ((current_cpsr &&& 0xffffffe0) ||| OperatingMode.SUPERVISOR.val)
    if ! res.2 then none
    else do
      let rf := res.1
      let res2 := rf.write_spsr current_cpsr
      if ! res2.2 then none
      else do
        let rf := res2.1
        let ret ← rf.get_register 15 4
        let rf ← rf.write_register 14 ret
        let rf ← rf.write_register 15 0x04
        let addr ← rf.get_register 15 4
        return ({ s with rf := rf, instruction_step := .STEP2 }, { req with address := addr })
  else if s.instruction_step = .STEP2 then do
    let addr ← s.rf.get_register 15 8
    return ({ s with instruction_step := .STEP0 }, { req with address := addr })
  else none

/-- `ARM7TDMI::arm_undefined` (arm_instructions.rs, lines 726-762). -/
def arm_undefined (s : ARM7TDMI) (req : MemoryRequest) :
    Option (ARM7TDMI × MemoryRequest) := do
  let condition := get_range s.arm_current_execute 31 28
  if ! s.rf.check_condition_code condition then
    return (s, req)
  if s.instruction_step = .STEP0 then
    return ({ s with arm_instruction_queue := [], data_is_fetch := false, instruction_step := .STEP1 },
      { req with bus_cycle := .NONSEQUENTIAL })
  else if s.instruction_step = .STEP1 then do
    let current_cpsr := s.rf.get_cpsr
    let rf := (s.rf.write_cpsr ((current_cpsr &&& 0xffffffe0) ||| OperatingMode.UND.val)).1
    let rf := (rf.write_spsr current_cpsr).1
    let ret ← rf.get_register 15 4
    let rf ← rf.write_register 14 ret
    let rf ← rf.write_register 15 0
    let addr ← rf.get_register 15 4
    return ({ s with rf := rf, instruction_step := .STEP2 }, { req with address := addr })
  else if s.instruction_step = .STEP2 then do
    let addr ← s.rf.get_register 15 8
    return ({ s with instruction_step := .STEP3 },
      { req with address := addr, bus_cycle := .INTERNAL })
  else if s.instruction_step = .STEP3 then
    return ({ s with data_is_fetch := false, instruction_step := .STEP0 }, req)
  else none

/-- `ARM7TDMI::arm_psr_transfer_mrs` (arm_instructions.rs, lines 767-788);
the method takes no request and only mutates the register file. -/
def arm_psr_transfer_mrs (s : ARM7TDMI) : Option ARM7TDMI := do
  let condition := get_range s.arm_current_execute 31 28
  let psr_flag := get_range s.arm_current_execute 22 22
  let rd := get_range s.arm_current_execute 15 12
  if ! s.rf.check_condition_code condition then
    return s
  if rd = 15 then none
  else do
    let source_register ←
      if psr_flag = 0 then some s.rf.get_cpsr else s.rf.get_spsr
    let rf ← s.rf.write_register rd source_register
    return { s with rf := rf }

/-- `ARM7TDMI::arm_psr_transfer_msr` (arm_instructions.rs, lines 794-846). -/
def arm_psr_transfer_msr (s : ARM7TDMI) : Option ARM7TDMI := do
  let condition := get_range s.arm_current_execute 31 28
  let i_flag := get_range s.arm_current_execute 25 25
  let psr_flag := get_range s.arm_current_execute 22 22
  let f_flag := get_range s.arm_current_execute 19 19
  let c_flag := get_range s.arm_current_execute 16 16
  let rm := get_range s.arm_current_execute 3 0
  let shift := get_range s.arm_current_execute 11 8
  let imm := get_range s.arm_current_execute 7 0
  if ! s.rf.check_condition_code condition then
    return s
  let source_operand ←
    (if i_flag = 0 then
      if rm = 15 then none
      else s.rf.get_register rm 0
    else some (rotate_right32 imm (shift * 2)))
  let to_modify ←
    if psr_flag = 1 then s.rf.get_spsr else some s.rf.get_cpsr
  let to_modify :=
    if c_flag = 1 ∧ s.rf.get_mode ≠ .USER then
      (to_modify &&& 0xffffff00) ||| (source_operand &&& 0x000000ff)
    else to_modify
  let to_modify :=
    if f_flag = 1 then
      (to_modify &&& 0x0fffffff) ||| (source_operand &&& 0xf0000000)
    else to_modify
  if psr_flag = 1 then
    let res := s.rf.write_spsr to_modify
    if ! res.2 then none else return { s with rf := res.1 }
  else
    let res := s.rf.write_cpsr to_modify
    if ! res.2 then none else return { s with rf := res.1 }

/-- `ARM7TDMI::arm_single_data_swap` (arm_instructions.rs, lines 855-929).
Note the source validates the three register operands against r15 (a panic)
before it checks the condition code. -/
def arm_single_data_swap (s : ARM7TDMI) (req : MemoryRequest)
    (rsp : MemoryResponse) : Option (ARM7TDMI × MemoryRequest) := do
  let condition := get_range s.arm_current_execute 31 28
  let b_flag := get_range s.arm_current_execute 22 22
  let rn := get_range s.arm_current_execute 19 16
  let rd := get_range s.arm_current_execute 15 12
  let rm := get_range s.arm_current_execute 3 0
  let offset := s.last_used_address % 4
  if rd = 15 ∨ rm = 15 ∨ rn = 15 then
    none
  else
  if ! s.rf.check_condition_code condition then
    return (s, req)
  if s.instruction_step = .STEP0 then
    return ({ s with instruction_step := .STEP1 }, { req with bus_cycle := .NONSEQUENTIAL })
  else if s.instruction_step = .STEP1 then do
    let addr ← s.rf.get_register rn 0
    return ({ s with data_is_fetch := false, instruction_step := .STEP2 },
      { req with address := addr
                 mas := (if b_flag = 0 then .WORD else .BYTE)
                 n_opc := .HIGH
                 lock := .HIGH
                 bus_cycle := .NONSEQUENTIAL })
  else if s.instruction_step = .STEP2 then do
    let addr ← s.rf.get_register rn 0
    if b_flag = 0 then do
      let data ← s.rf.get_register rm 0
      let data_to_write := rotate_right32 rsp.data (8 * (s.last_used_address % 4))
      let rf ← s.rf.write_register rd data_to_write
      return ({ s with rf := rf, data_is_fetch := false, instruction_step := .STEP3 },
        { req with address := addr
                   data := data
                   mas := .WORD
                   nr_w := .HIGH
                   n_opc := .HIGH
                   lock := .HIGH
                   bus_cycle := .INTERNAL })
    else do
      let rmv ← s.rf.get_register rm 0
      let byte := get_range rmv 7 0
      let data := byte ||| (byte <<< 8) ||| (byte <<< 16) ||| (byte <<< 24)
      let data_to_write := get_range rsp.data (offset * 8 + 7) (offset * 8)
      let rf ← s.rf.write_register rd data_to_write
      return ({ s with rf := rf, data_is_fetch := false, instruction_step := .STEP3 },
        { req with address := addr
                   data := data
                   mas := .BYTE
                   nr_w := .HIGH
                   n_opc := .HIGH
                   lock := .HIGH
                   bus_cycle := .INTERNAL })
  else if s.instruction_step = .STEP3 then
    return ({ s with data_is_fetch := false, instruction_step := .STEP0 }, req)
  else none

/-- `ARM7TDMI::arm_multiply` (arm_instructions.rs, lines 937-1032). -/
def arm_multiply (s : ARM7TDMI) (req : MemoryRequest) :
    Option (ARM7TDMI × MemoryRequest) := do
  let condition := get_range s.arm_current_execute 31 28
  let opcode := get_range s.arm_current_execute 24 21
  let s_flag := get_range s.arm_current_execute 20 20
  let rd := get_range s.arm_current_execute 19 16
  let rn := get_range s.arm_current_execute 15 12
  let rs := get_range s.arm_current_execute 11 8
  let rm := get_range s.arm_current_execute 3 0
  if ! s.rf.check_condition_code condition then
    return (s, req)
  let req := { req with bus_cycle := .INTERNAL }
  if s.instruction_step = .STEP0 then do
    let op_s ← s.rf.get_register rs 0
    let counter := 4 - (u32_leading_zeros op_s >>> 3)
    let counter := counter +
      (if opcode = 0 then 0 else if opcode = 5 ∨ opcode = 7 then 2 else 1)
    return ({ s with instruction_step := .STEP1, instruction_counter_step := counter }, req)
  else if s.instruction_step = .STEP1 then do
    let s := { s with data_is_fetch := false
                      instruction_counter_step := (s.instruction_counter_step + (u32size - 1)) % u32size }
    if s.instruction_counter_step = 0 then do
      let op_s ← s.rf.get_register rs 0
      let op_m ← s.rf.get_register rm 0
      let op_n ← s.rf.get_register rn 0
      let op_d ← s.rf.get_register rd 0
      if opcode ≤ 1 then do
        let result :=
          if opcode = 0 then (op_s * op_m) % u32size
          else (op_s * op_m + op_n) % u32size
        let rf ← s.rf.write_register rd result
        let rf :=
          if s_flag = 1 then
            (rf.write_z (result = 0)).write_n (is_bit_set result 31)
          else rf
        return ({ s with rf := rf, instruction_step := .STEP0 },
          { req with bus_cycle := .SEQUENTIAL })
      else do
        let result ←
          (if opcode = 4 then some ((op_s * op_m) % u64size)
          else if opcode = 5 then some ((op_s * op_m + (op_n ||| (op_d <<< 32))) % u64size)
          else if opcode = 6 then some (toU64 (signExt32 op_s * signExt32 op_m))
          else if opcode = 7 then
            some (toU64 (signExt32 op_s * signExt32 op_m + signExt64 (op_n ||| (op_d <<< 32))))
          else none)
        let rf ← s.rf.write_register rd (get_range result 63 32)
        let rf ← rf.write_register rn (get_range result 31 0)
        let rf :=
          if s_flag = 1 then
            (rf.write_z (result = 0)).write_n (is_bit_set result 63)
          else rf
        return ({ s with rf := rf, instruction_step := .STEP0 },
          { req with bus_cycle := .SEQUENTIAL })
    else
      return (s, req)
  else none

/-- `ARM7TDMI::modify_register_ldm_stm` (arm_instructions.rs, lines
1258-1276): the base-register write-back of LDM/STM, with the ±0x40
adjustment when the register list was empty.  The method mutates only
`self.rf`. -/
def modify_register_ldm_stm (rf : RegisterFile) (was_list_empy : Bool)
    (w_flag u_flag rn step : Nat) : Option RegisterFile :=
  if ! was_list_empy then
    if w_flag = 1 ∧ u_flag = 0 then do
      let v ← rf.get_register rn 0
      rf.write_register rn (wsub v step)
    else if w_flag = 1 ∧ u_flag = 1 then do
      let v ← rf.get_register rn 0
      rf.write_register rn (wadd v step)
    else some rf
  else
    if w_flag = 1 ∧ u_flag = 0 then do
      let v ← rf.get_register rn 0
      rf.write_register rn (wsub v 0x40)
    else if w_flag = 1 ∧ u_flag = 1 then do
      let v ← rf.get_register rn 0
      rf.write_register rn (wadd v 0x40)
    else some rf

/-- The register scan loop of `arm_block_data_transfer` at step 0
(arm_instructions.rs, lines 1110-1126): walk the 16 register slots in
ascending order, pushing an (address, register) pair for each bit set in
`r_list` and bumping the address by 4 after each push.  The first argument
counts the slots still to scan (16 at the top of the loop). -/
def build_transfer_list (r_list : Nat) :
    Nat → Nat → Nat → List (Nat × Nat)
  | 0, _, _ => []
  | remaining + 1, register_counter, address_to_use =>
    if (1 <<< register_counter) &&& r_list = 0 then
      build_transfer_list r_list remaining (register_counter + 1) address_to_use
    else
      (address_to_use, register_counter) ::
        build_transfer_list r_list remaining (register_counter + 1) (wadd address_to_use 4)

/-- `ARM7TDMI::arm_block_data_transfer` (arm_instructions.rs, lines
1041-1245). -/
def arm_block_data_transfer (s : ARM7TDMI) (req : MemoryRequest)
    (rsp : MemoryResponse) : Option (ARM7TDMI × MemoryRequest) := do
  let condition := get_range s.arm_current_execute 31 28
  let p_flag := get_range s.arm_current_execute 24 24
  let u_flag := get_range s.arm_current_execute 23 23
  let s_flag := get_range s.arm_current_execute 22 22
  let w_flag := get_range s.arm_current_execute 21 21
  let l_flag := get_range s.arm_current_execute 20 20
  let rn := get_range s.arm_current_execute 19 16
  let r_list := get_range s.arm_current_execute 15 0
  let is_rn_in_list := (r_list &&& (1 <<< rn)) ≠ 0
  if ! s.rf.check_condition_code condition then
    return (s, req)
  if rn = 15 then
    none
  else
  let (r_list, was_list_empy) :=
    if r_list = 0 then (set_bit r_list 15, true) else (r_list, false)
  let items_to_handle := count_ones32 r_list
  let s ←
    (if s.instruction_step = .STEP0 then do
      let a0 ← s.rf.get_register rn 0
      let address_to_use :=
        if u_flag = 0 ∧ p_flag = 0 then
          (if was_list_empy then wadd (wsub a0 (0x10 * 4)) 4
           else wadd (wsub a0 (items_to_handle * 4)) 4)
        else if u_flag = 0 ∧ p_flag = 1 then
          (if was_list_empy then wsub a0 (0x10 * 4) else wsub a0 (items_to_handle * 4))
        else if u_flag = 1 ∧ p_flag = 1 then wadd a0 4
        else a0
      some { s with list_transfer_op := build_transfer_list r_list 16 0 address_to_use }
    else some s)
  if l_flag = 0 then
    if s.instruction_step = .STEP0 then
      return ({ s with instruction_step := .STEP1, instruction_counter_step := 0 },
        { req with bus_cycle := .NONSEQUENTIAL })
    else if s.instruction_step = .STEP1 then do
      let pair ← s.list_transfer_op.get? s.instruction_counter_step
      let data ←
        if s_flag = 1 then s.rf.get_user_register pair.2 12
        else s.rf.get_register pair.2 12
      let req := { req with bus_cycle := .SEQUENTIAL
                            address := pair.1
                            nr_w := .HIGH
                            data := data }
      let rf ←
        (if s.instruction_counter_step = 0 then
          modify_register_ldm_stm s.rf was_list_empy w_flag u_flag rn (4 * items_to_handle)
        else some s.rf)
      let s := { s with rf := rf
                        data_is_fetch := false
                        instruction_counter_step := s.instruction_counter_step + 1 }
      if s.instruction_counter_step = items_to_handle then
        return ({ s with instruction_step := .STEP0 },
          { req with bus_cycle := .NONSEQUENTIAL })
      else
        return (s, req)
    else none
  else
    if s.instruction_step = .STEP0 then
      return ({ s with instruction_step := .STEP1, instruction_counter_step := 0 },
        { req with bus_cycle := .NONSEQUENTIAL })
    else if s.instruction_step = .STEP1 then do
      let pair ← s.list_transfer_op.get? 0
      let req := { req with
        bus_cycle := (if items_to_handle = 1 then .INTERNAL else .SEQUENTIAL)
        address := pair.1 }
      return ({ s with data_is_fetch := false
                       instruction_counter_step := s.instruction_counter_step + 1
                       instruction_step := .STEP2 }, req)
    else if s.instruction_step = .STEP2 then do
      let s := { s with data_is_fetch := false }
      let rf ←
        (if ! is_rn_in_list then
          modify_register_ldm_stm s.rf was_list_empy w_flag u_flag rn 4
        else some s.rf)
      let pair ← s.list_transfer_op.get? (s.instruction_counter_step - 1)
      let rf ←
        if s_flag = 0 ∨ is_bit_set r_list 15 then rf.write_register pair.2 rsp.data
        else rf.write_user_register pair.2 rsp.data
      let s := { s with rf := rf }
      if items_to_handle = s.instruction_counter_step then
        if is_bit_set r_list 15 then do
          let current_spsr ← s.rf.get_spsr
          let rf := (s.rf.write_cpsr current_spsr).1
          return ({ s with rf := rf
                           arm_instruction_queue := []
                           data_is_fetch := false
                           instruction_step := .STEP3 },
            { req with bus_cycle := .NONSEQUENTIAL })
        else
          return ({ s with instruction_step := .STEP0 }, req)
      else do
        let req :=
          if s.instruction_counter_step + 1 = items_to_handle then
            { req with bus_cycle := .INTERNAL }
          else req
        let pair2 ← s.list_transfer_op.get? s.instruction_counter_step
        return ({ s with instruction_counter_step := s.instruction_counter_step + 1 },
          { req with address := pair2.1 })
    else if s.instruction_step = .STEP3 then do
      let pc ← s.rf.get_register 15 0
      return ({ s with instruction_step := .STEP4 }, { req with address := pc })
    else if s.instruction_step = .STEP4 then do
      let pc4 ← s.rf.get_register 15 4
      let pc0 ← s.rf.get_register 15 0
      let rf ← s.rf.write_register 15 (wsub pc0 4)
      return ({ s with rf := rf, instruction_step := .STEP0 }, { req with address := pc4 })
    else none

/-- The 32-bit result component of an ALU output. -/
def result_of (x : Option (Nat × Bool × Bool)) : Option Nat :=
  x.map (fun y => y.1)

/-- A register file with the given cpsr and all registers zero. -/
def rf_with_cpsr (c : Nat) : RegisterFile :=
  { registers := List.replicate 16 0
    fiq_bank := List.replicate 7 0
    svc_bank := List.replicate 2 0
    abt_bank := List.replicate 2 0
    irq_bank := List.replicate 2 0
    und_bank := List.replicate 2 0
    cpsr := c
    spsr := List.replicate 5 0 }

/-- The instruction-class handlers of the revised execution engine, for
quantifying over them; MRS/MSR take no request and leave it untouched. -/
inductive HandlerTag where
  | DataProcessing
  | BranchAndExchange
  | Branch
  | SingleDataTransfer
  | HwTransfer
  | SoftwareInterrupt
  | Undefined
  | PsrTransferMRS
  | PsrTransferMSR
  | SingleDataSwap
  | Multiply
  | BlockDataTransfer
deriving DecidableEq, Repr

/-- Dispatch one revised handler on a state, a request and a response. -/
def run_handler (h : HandlerTag) (s : ARM7TDMI) (req : MemoryRequest)
    (rsp : MemoryResponse) : Option (ARM7TDMI × MemoryRequest) :=
  match h with
  | .DataProcessing => arm_data_processing s req
  | .BranchAndExchange => arm_branch_and_exchange s req rsp
  | .Branch => arm_branch s req
  | .SingleDataTransfer => arm_single_data_transfer s req rsp
  | .HwTransfer => arm_hw_transfer s req rsp
  | .SoftwareInterrupt => arm_swi s req
  | .Undefined => arm_undefined s req
  | .PsrTransferMRS => (arm_psr_transfer_mrs s).map (fun s2 => (s2, req))
  | .PsrTransferMSR => (arm_psr_transfer_msr s).map (fun s2 => (s2, req))
  | .SingleDataSwap => arm_single_data_swap s req rsp
  | .Multiply => arm_multiply s req
  | .BlockDataTransfer => arm_block_data_transfer s req rsp

/-- A generic incoming request for concrete runs: the default opcode fetch
at address 0. -/
def req_gen : MemoryRequest :=
  { address := 0
    data := 0
    nr_w := .LOW
    mas := .WORD
    n_opc := .LOW
    n_trans := .HIGH
    lock := .LOW
    t_bit := .LOW
    bus_cycle := .SEQUENTIAL }

/-- A non-waiting memory response carrying zero data. -/
def rsp_ok : MemoryResponse := { data := 0, n_wait := .HIGH }

/-- A revised-engine CPU in SYSTEM mode with zeroed registers, a given
current instruction and FSM step. -/
def mkCpu (instr : Nat) (st : InstructionStep) : ARM7TDMI :=
  { rf := rf_with_cpsr 0x10
    arm_instruction_queue := []
    arm_current_execute := instr
    instruction_step := st
    data_is_fetch := true
    last_used_address := 0
    instruction_counter_step := 0
    list_transfer_op := [] }

/-- A concrete register file for the stall counterexample: SYSTEM mode,
pc = 0x100. -/
def c3_rf : RegisterFile :=
  { registers := List.replicate 15 0 ++ [0x100]
    fiq_bank := List.replicate 7 0
    svc_bank := List.replicate 2 0
    abt_bank := List.replicate 2 0
    irq_bank := List.replicate 2 0
    und_bank := List.replicate 2 0
    cpsr := 0x10
    spsr := List.replicate 5 0 }

/-- A CPU about to execute `B +0` (0xEA000000) at step 0. -/
def c3_s0 : ARM7TDMIOld :=
  { rf := c3_rf
    arm_instruction_queue := []
    arm_current_execute := 0xEA000000
    instruction_step := .STEP0
    data_is_fetch := true
    data_is_reading := true
    last_used_address := 0 }

/-- The state after one non-stalled `step` on `c3_s0`: the branch flushed the
queue, redirected the pc and moved to step 1. -/
def c3_s1 : ARM7TDMIOld :=
  { rf := { c3_rf with registers := List.replicate 15 0 ++ [0x104] }
    arm_instruction_queue := []
    arm_current_execute := 0xEA000000
    instruction_step := .STEP1
    data_is_fetch := false
    data_is_reading := true
    last_used_address := 0x108 }

/-- The request the first (non-stalled) call returns: a non-sequential cycle. -/
def c3_req0 : MemoryRequest :=
  { address := 0x108, data := 0, nr_w := .LOW, mas := .WORD, n_opc := .LOW,
    n_trans := .HIGH, lock := .LOW, t_bit := .LOW, bus_cycle := .NONSEQUENTIAL }

/-- The request the stalled second call returns: the rebuilt generic fetch. -/
def c3_req1 : MemoryRequest :=
  { address := 0x10C, data := 0, nr_w := .LOW, mas := .WORD, n_opc := .LOW,
    n_trans := .HIGH, lock := .LOW, t_bit := .LOW, bus_cycle := .SEQUENTIAL }

end GBA

open GBA

/-- C1: `check_condition_code` diverges from the documented ARM condition
table.  With all flags clear (cpsr = 0x10) the LS condition (code 0b1001,
documented as "C clear or Z set", hence true) is reported false, because the
source computes `!C && Z` instead of `!C || Z`; with Z set and N = V the LE
condition (code 0b1101, documented as "Z set or N ≠ V", hence true) is
reported false, because the source computes `Z && (N != V)` instead of
`Z || (N != V)`. -/
theorem check_condition_code_ls_le_divergence :
    RegisterFile.check_condition_code (rf_with_cpsr 0x10) 0b1001 = false
    ∧ arm_condition_table false false false false 0b1001 = true
    ∧ RegisterFile.check_condition_code (rf_with_cpsr 0x40000010) 0b1101 = false
    ∧ arm_condition_table false true false false 0b1101 = true := by
  refine ⟨by decide, by decide, by decide, by decide⟩

/-- C4: `write_cpsr value` fails (returns `Err`, mutating nothing, the whole
register file and in particular cpsr included) precisely when the low 5 bits
of `value` are none of the 7 mode encodings; otherwise it succeeds and the
resulting register file is the old one with cpsr replaced by `value` and
every other field untouched. -/
theorem write_cpsr_mode_gate (rf : RegisterFile) (value : Nat) :
    RegisterFile.write_cpsr rf value =
      if get_range value 4 0 = 0b10000 ∨ get_range value 4 0 = 0b11111
          ∨ get_range value 4 0 = 0b10001 ∨ get_range value 4 0 = 0b10010
          ∨ get_range value 4 0 = 0b10011 ∨ get_range value 4 0 = 0b10111
          ∨ get_range value 4 0 = 0b11011 then
        ({ rf with cpsr := value }, true)
      else
        (rf, false) := by
  unfold RegisterFile.write_cpsr RegisterFile.is_mode_correct
  rcases h16 : decide (get_range value 4 0 = 0b10000) with _ | _ <;>
    rcases h31 : decide (get_range value 4 0 = 0b11111) with _ | _ <;>
      rcases h17 : decide (get_range value 4 0 = 0b10001) with _ | _ <;>
        rcases h18 : decide (get_range value 4 0 = 0b10010) with _ | _ <;>
          rcases h19 : decide (get_range value 4 0 = 0b10011) with _ | _ <;>
            rcases h23 : decide (get_range value 4 0 = 0b10111) with _ | _ <;>
              rcases h27 : decide (get_range value 4 0 = 0b11011) with _ | _ <;>
                simp_all [OperatingMode.val, bne_iff_ne]

/-! ### Shared arithmetic lemmas -/

lemma toU32_signExt (x : Nat) (hx : x < u32size) : toU32 (signExt32 x) = x := by
  simp only [toU32, signExt32, u32size] at *
  split <;> omega

lemma toU32_add_eq (a b : Nat) :
    toU32 (signExt32 a + signExt32 b) = (a + b) % u32size := by
  simp only [toU32, signExt32, u32size] at *
  split <;> split <;> omega

lemma toU32_sub_eq (a b : Nat) (hb : b < u32size) :
    toU32 (signExt32 a - signExt32 b) = (a + (u32size - b)) % u32size := by
  simp only [toU32, signExt32, u32size] at *
  split <;> split <;> omega

/-- C2: carry and overflow of the revised ALU.  For 32-bit operands, ADD
returns the wrapped sum with carry exactly when the exact sum exceeds
0xFFFFFFFF; SUB returns the wrapped difference `a - b` with carry exactly
when `b ≤ a` (no unsigned borrow); and the overflow output of ADD/ADC
(resp. SUB/SBC) is the documented bit-31 XOR formula applied to the operands
and the returned 32-bit result. -/
theorem alu_carry_overflow_spec (rf : RegisterFile) (a b : Nat)
    (ha : a < u32size) (hb : b < u32size) :
    alu rf a b .ADD = some ((a + b) % u32size, decide (a + b > 0xffffffff),
        add_overflow_formula a b ((a + b) % u32size))
    ∧ alu rf a b .SUB = some ((a + (u32size - b)) % u32size, decide (b ≤ a),
        sub_overflow_formula a b ((a + (u32size - b)) % u32size))
    ∧ (alu rf a b .ADC).isSome ∧ (alu rf a b .SBC).isSome
    ∧ (∀ r c v, alu rf a b .ADC = some (r, c, v) → v = add_overflow_formula a b r)
    ∧ (∀ r c v, alu rf a b .SBC = some (r, c, v) → v = sub_overflow_formula a b r) := by
  refine ⟨?_, ?_, rfl, rfl, ?_, ?_⟩
  · simp only [alu, add_overflow_formula]
    rw [toU32_add_eq a b]
  · simp only [alu, sub_overflow_formula]
    rw [toU32_sub_eq a b hb, toU32_signExt a ha, toU32_signExt b hb]
  · intro r c v h
    simp only [alu, Option.some.injEq, Prod.mk.injEq] at h
    obtain ⟨h1, _, h3⟩ := h
    rw [← h3, ← h1]
    rfl
  · intro r c v h
    simp only [alu, Option.some.injEq, Prod.mk.injEq] at h
    obtain ⟨h1, _, h3⟩ := h
    rw [← h3, ← h1]
    rfl

/-- C2 witness: the theorem applied at a = 3, b = 5 with zero flags. -/
theorem alu_carry_overflow_spec_witness :
    alu (rf_with_cpsr 0x10) 3 5 .ADD = some (8, false, false)
    ∧ 3 < u32size ∧ 5 < u32size := by
  have h := alu_carry_overflow_spec (rf_with_cpsr 0x10) 3 5 (by decide) (by decide)
  exact ⟨by rw [h.1]; decide, by decide, by decide⟩

/-- C5: the barrel shifter agrees with the documented corner-case table for
every value, every shift type, every amount (0, 1..31, 32, above 32), both
immediate- and register-specified; in particular LSL #0 with a
register-specified amount returns `(v, c, false)`. -/
theorem barrel_shifter_matches_documented_table (v : Nat)
    (t : ArmAluShiftCodes) (a : Nat) (c r : Bool) :
    barrel_shifter v t a c r = barrel_shifter_table v t a c r := by
  cases t <;> simp only [barrel_shifter, barrel_shifter_table] <;>
    split_ifs <;> first | rfl | omega | tauto

/-- C6 counterexample: the two ALU revisions do not return the same triple;
for SUB with operands 5 and 3 the old revision reports carry = bit 32 of the
64-bit difference (false), the revised one reports carry = `3 ≤ 5` (true). -/
theorem alu_revisions_disagree_counterexample :
    alu_old (rf_with_cpsr 0x10) 5 3 .SUB ≠ alu (rf_with_cpsr 0x10) 5 3 .SUB := by
  decide

/-- C6 amended: the two ALU revisions agree on the 32-bit result for
SUB/CMP/RSB/ADD/CMN/ADC, while the old revision computes SBC and RSC with the
operands swapped (old SBC equals new RSC and vice versa); the carry and
overflow outputs differ in general, as the counterexample shows. -/
theorem alu_revisions_same_result (rf : RegisterFile) (a b : Nat) :
    result_of (alu_old rf a b .SUB) = result_of (alu rf a b .SUB)
    ∧ result_of (alu_old rf a b .CMP) = result_of (alu rf a b .CMP)
    ∧ result_of (alu_old rf a b .RSB) = result_of (alu rf a b .RSB)
    ∧ result_of (alu_old rf a b .ADD) = result_of (alu rf a b .ADD)
    ∧ result_of (alu_old rf a b .CMN) = result_of (alu rf a b .CMN)
    ∧ result_of (alu_old rf a b .ADC) = result_of (alu rf a b .ADC)
    ∧ result_of (alu_old rf a b .SBC) = result_of (alu rf a b .RSC)
    ∧ result_of (alu_old rf a b .RSC) = result_of (alu rf a b .SBC) := by
  simp only [alu, alu_old, result_of, Option.map_some']
  refine ⟨trivial, trivial, trivial, ?_, ?_, ?_, trivial, trivial⟩ <;>
    · congr 2
      ring

/-- C8: `decode_arm` is exactly first-match classification over the fixed
mask/pattern rows in the documented priority order (with `Unimplemented` as
the fall-through); as concrete overlap checks, the BX word 0x012FFF10 also
matches the data-processing pattern yet decodes as branch-and-exchange, and
the multiply word 0xE0000090 also matches the half-word-transfer pattern yet
decodes as multiply. -/
theorem decode_arm_is_priority_first_match :
    (∀ data, decode_arm data = first_match arm_decode_priority_table data)
    ∧ decode_arm 0x012FFF10 = .BranchAndExchange
    ∧ 0x012FFF10 &&& 0x0C000000 = 0x00000000
    ∧ decode_arm 0xE0000090 = .Multiply
    ∧ 0xE0000090 &&& 0x0E000090 = 0x00000090 := by
  refine ⟨fun data => ?_, by decide, by decide, by decide, by decide⟩
  simp only [decode_arm, arm_decode_priority_table, first_match]


lemma get_register_r15 (rf : RegisterFile) (inc : Nat) :
    rf.get_register 15 inc = some ((rf.registers.getD 15 0 + inc) % u32size) := by
  simp [RegisterFile.get_register]

/-- C3 counterexample: a stalled `step` does not reissue the previous cycle's
request.  From `c3_s0` (a taken branch at step 0) the first call returns the
non-sequential request `c3_req0` with address 0x108; calling `step` on the
resulting state with wait asserted leaves the state unchanged but returns the
rebuilt sequential fetch `c3_req1` with address 0x10C, which differs from
`c3_req0` in both address and cycle type. -/
theorem step_stall_request_differs_from_previous :
    step_old c3_s0 { data := NOP, n_wait := .HIGH } = some (c3_s1, c3_req0)
    ∧ step_old c3_s1 { data := NOP, n_wait := .LOW } = some (c3_s1, c3_req1)
    ∧ c3_req1 ≠ c3_req0 := by
  refine ⟨by decide, by decide, by decide⟩

/-- C3 amended: when the memory response asserts wait (`n_wait` LOW), `step`
returns with the whole CPU state unchanged, and the returned request is the
freshly rebuilt generic opcode-fetch request computed from that state (stored
pc + 8, sequential privileged word opcode read) — not necessarily the request
returned by the previous call. -/
theorem step_stall_preserves_state (s : ARM7TDMIOld) (rsp : MemoryResponse)
    (h : rsp.n_wait = .LOW) :
    step_old s rsp = some (s, stall_request s) := by
  simp [step_old, get_register_old, get_register_r15, h, stall_request, wadd]

/-- C3 amended, witness: the theorem applied at `c3_s0` with a waiting
response. -/
theorem step_stall_preserves_state_witness :
    step_old c3_s0 { data := 0, n_wait := .LOW } = some (c3_s0, stall_request c3_s0) :=
  step_stall_preserves_state c3_s0 { data := 0, n_wait := .LOW } rfl

lemma get_range_le (v e b : Nat) : get_range v e b ≤ (1 <<< (e - b + 1)) - 1 :=
  Nat.and_le_right

lemma get_range_lt_16 (v b : Nat) : get_range v (b + 3) b ≤ 15 := by
  have h := get_range_le v (b + 3) b
  simpa using h

lemma is_mode_correct_cases (v : Nat)
    (h : RegisterFile.is_mode_correct v = true) :
    get_range v 4 0 = 0b10000 ∨ get_range v 4 0 = 0b11111
    ∨ get_range v 4 0 = 0b10001 ∨ get_range v 4 0 = 0b10010
    ∨ get_range v 4 0 = 0b10011 ∨ get_range v 4 0 = 0b10111
    ∨ get_range v 4 0 = 0b11011 := by
  by_contra hc
  push_neg at hc
  obtain ⟨h1, h2, h3, h4, h5, h6, h7⟩ := hc
  have : RegisterFile.is_mode_correct v = false := by
    simp [RegisterFile.is_mode_correct, OperatingMode.val, h1, h2, h3, h4, h5, h6, h7]
  rw [this] at h
  exact Bool.noConfusion h

lemma get_register_isSome (rf : RegisterFile)
    (hm : RegisterFile.is_mode_correct rf.cpsr = true) (i inc : Nat)
    (hi : i ≤ 15) : ∃ x, rf.get_register i inc = some x := by
  unfold RegisterFile.get_register
  rcases is_mode_correct_cases rf.cpsr hm with h | h | h | h | h | h | h <;>
    · rw [h]
      norm_num [OperatingMode.val]
      split_ifs <;> first | exact ⟨_, rfl⟩ | omega

lemma write_register_isSome (rf : RegisterFile) (i v : Nat) (hi : i ≤ 15) :
    ∃ rf2, rf.write_register i v = some rf2 := by
  simp only [RegisterFile.write_register]
  split_ifs <;> first | exact ⟨_, rfl⟩ | omega

lemma from_u32_isSome (t : Nat) (ht : t ≤ 3) :
    ∃ st, ArmAluShiftCodes.from_u32 t = some st := by
  interval_cases t <;> exact ⟨_, rfl⟩

/-- C7 counterexample: the single-data-swap handler does not return
unchanged on a failing condition — it validates its register operands
against r15 before checking the condition and panics (modelled as `none`).
The word 0x0100F090 is a genuine SWP encoding (it decodes as
single-data-swap) with rd = 15 and condition EQ; with Z clear the condition
is false, yet the handler halts instead of producing the 1-cycle no-op. -/
theorem swap_handler_panics_despite_false_condition :
    decode_arm 0x0100F090 = ArmInstructionType.SingleDataSwap
    ∧ (rf_with_cpsr 0x10).check_condition_code (get_range 0x0100F090 31 28) = false
    ∧ arm_single_data_swap (mkCpu 0x0100F090 .STEP0) req_gen rsp_ok = none := by
  refine ⟨by decide, by decide, by decide⟩

/-- C7 amended: every revised handler invoked at FSM step 0 on a state with
a legal cpsr mode returns at once when the instruction's condition code
evaluates false, leaving the CPU state and the outgoing request exactly as
they were — except that the single-data-swap handler first validates rd, rm
and rn against r15 and panics even when the condition fails, so for it the
guarantee additionally requires that none of those operands is r15. -/
theorem handlers_skip_false_condition (h : HandlerTag) (s : ARM7TDMI)
    (req : MemoryRequest) (rsp : MemoryResponse)
    (hmode : RegisterFile.is_mode_correct s.rf.cpsr = true)
    (hstep : s.instruction_step = InstructionStep.STEP0)
    (hcond : s.rf.check_condition_code (get_range s.arm_current_execute 31 28) = false)
    (hswap : h = HandlerTag.SingleDataSwap →
      get_range s.arm_current_execute 15 12 ≠ 15
      ∧ get_range s.arm_current_execute 3 0 ≠ 15
      ∧ get_range s.arm_current_execute 19 16 ≠ 15) :
    run_handler h s req rsp = some (s, req) := by
  cases h
  case DataProcessing =>
    obtain ⟨x1, e1⟩ := get_register_isSome s.rf hmode
      (get_range s.arm_current_execute 19 16) 8 (get_range_lt_16 _ 16)
    obtain ⟨x2, e2⟩ := get_register_isSome s.rf hmode
      (get_range s.arm_current_execute 3 0) 8 (get_range_lt_16 _ 0)
    simp [run_handler, arm_data_processing, hstep, hcond, e1, e2]
  case BranchAndExchange =>
    obtain ⟨x1, e1⟩ := get_register_isSome s.rf hmode
      (get_range s.arm_current_execute 3 0) 8 (get_range_lt_16 _ 0)
    simp [run_handler, arm_branch_and_exchange, hcond, e1]
  case Branch =>
    simp [run_handler, arm_branch, hcond, get_register_r15]
  case SingleDataTransfer =>
    simp [run_handler, arm_single_data_transfer, hcond]
  case HwTransfer =>
    simp [run_handler, arm_hw_transfer, hcond]
  case SoftwareInterrupt =>
    simp [run_handler, arm_swi, hcond]
  case Undefined =>
    simp [run_handler, arm_undefined, hcond]
  case PsrTransferMRS =>
    simp [run_handler, arm_psr_transfer_mrs, hcond]
  case PsrTransferMSR =>
    simp [run_handler, arm_psr_transfer_msr, hcond]
  case SingleDataSwap =>
    obtain ⟨h1, h2, h3⟩ := hswap rfl
    simp [run_handler, arm_single_data_swap, hcond, h1, h2, h3]
  case Multiply =>
    simp [run_handler, arm_multiply, hcond]
  case BlockDataTransfer =>
    simp [run_handler, arm_block_data_transfer, hcond]

/-- C7 amended, witness: the theorem applied to the data-processing handler
on the word 0x00000000 (ANDEQ r0, r0, r0) with Z clear, where the EQ
condition is false. -/
theorem handlers_skip_false_condition_witness :
    run_handler HandlerTag.DataProcessing (mkCpu 0x00000000 .STEP0) req_gen rsp_ok
      = some (mkCpu 0x00000000 .STEP0, req_gen) :=
  handlers_skip_false_condition HandlerTag.DataProcessing
    (mkCpu 0x00000000 .STEP0) req_gen rsp_ok (by decide) rfl (by decide)
    (fun hh => absurd hh (by decide))

lemma build_transfer_list_bit15 (a : Nat) :
    build_transfer_list 32768 16 0 a = [(a, 15)] := rfl

/-- C9: an LDM/STM whose 16-bit register list is zero transfers exactly one
register, r15: the (address, register) list the handler builds at step 0
holds a single pair naming register 15 (the list is forced to bit 15 alone,
whose population count is 1); and with write-back requested the base-register
adjustment of `modify_register_ldm_stm` in the empty-list case is 0x40 —
added when the up flag is set, subtracted otherwise — whatever the
`4 × count` step argument passed in. -/
theorem ldm_stm_empty_list_pc_only (s : ARM7TDMI) (req : MemoryRequest)
    (rsp : MemoryResponse)
    (hmode : RegisterFile.is_mode_correct s.rf.cpsr = true)
    (hstep : s.instruction_step = InstructionStep.STEP0)
    (hcond : s.rf.check_condition_code (get_range s.arm_current_execute 31 28) = true)
    (hrn : get_range s.arm_current_execute 19 16 ≠ 15)
    (hlist : get_range s.arm_current_execute 15 0 = 0) :
    (arm_block_data_transfer s req rsp).map
        (fun x => x.1.list_transfer_op.map Prod.snd) = some [15]
    ∧ count_ones32 (set_bit 0 15) = 1
    ∧ (∀ (rf : RegisterFile) (u rn st v : Nat), rf.get_register rn 0 = some v →
        modify_register_ldm_stm rf true 1 u rn st =
          (if u = 1 then rf.write_register rn (wadd v 0x40)
           else if u = 0 then rf.write_register rn (wsub v 0x40)
           else some rf)) := by
  obtain ⟨a0, e0⟩ := get_register_isSome s.rf hmode
    (get_range s.arm_current_execute 19 16) 0 (get_range_lt_16 _ 16)
  refine ⟨?_, by decide, ?_⟩
  · by_cases hl : get_range s.arm_current_execute 20 20 = 0 <;>
      simp [arm_block_data_transfer, hstep, hcond, hrn, hlist, e0, hl,
        show set_bit 0 15 = 32768 from rfl, build_transfer_list_bit15]
  · intro rf u rn st v hv
    rcases u with _ | _ | u <;> simp [modify_register_ldm_stm, hv]

/-- C9 witness: the theorem applied to `STMIA r0!, {}` (0xE8A00000, an
always-true condition, base r0, write-back, empty register list) at step 0. -/
theorem ldm_stm_empty_list_pc_only_witness :
    ((arm_block_data_transfer (mkCpu 0xE8A00000 .STEP0) req_gen rsp_ok).map
        (fun x => x.1.list_transfer_op.map Prod.snd) = some [15])
    ∧ count_ones32 (set_bit 0 15) = 1
    ∧ (∀ (rf : RegisterFile) (u rn st v : Nat), rf.get_register rn 0 = some v →
        modify_register_ldm_stm rf true 1 u rn st =
          (if u = 1 then rf.write_register rn (wadd v 0x40)
           else if u = 0 then rf.write_register rn (wsub v 0x40)
           else some rf)) :=
  ldm_stm_empty_list_pc_only (mkCpu 0xE8A00000 .STEP0) req_gen rsp_ok
    (by decide) rfl (by decide) (by decide) (by decide)

/-- C10: a store whose source register is r15 drives the stored pc plus 12
(not plus 8) onto the bus data lines.  For STR/STRB at the bus step: before
any byte replication the value read is the stored pc + 12 (word stores drive
it unchanged, byte stores replicate its low byte on all four lanes); for
STRH the value is pc + 12 before the halfword replication across both
lanes. -/
theorem store_r15_drives_pc_plus_12 (s : ARM7TDMI) (req : MemoryRequest)
    (rsp : MemoryResponse)
    (hmode : RegisterFile.is_mode_correct s.rf.cpsr = true)
    (hstep : s.instruction_step = InstructionStep.STEP1)
    (hcond : s.rf.check_condition_code (get_range s.arm_current_execute 31 28) = true) :
    (∀ s2 req2,
      get_range s.arm_current_execute 20 20 = 0 →
      get_range s.arm_current_execute 15 12 = 15 →
      arm_single_data_transfer s req rsp = some (s2, req2) →
      req2.data =
        (if get_range s.arm_current_execute 22 22 = 1 then
          (((s.rf.registers.getD 15 0 + 12) % u32size) &&& 0xff)
            ||| ((((s.rf.registers.getD 15 0 + 12) % u32size) &&& 0xff) <<< 8)
            ||| ((((s.rf.registers.getD 15 0 + 12) % u32size) &&& 0xff) <<< 16)
            ||| ((((s.rf.registers.getD 15 0 + 12) % u32size) &&& 0xff) <<< 24)
        else (s.rf.registers.getD 15 0 + 12) % u32size))
    ∧ (∀ s2 req2,
      get_range s.arm_current_execute 20 20 = 0 →
      get_range s.arm_current_execute 6 5 = 1 →
      get_range s.arm_current_execute 15 12 = 15 →
      arm_hw_transfer s req rsp = some (s2, req2) →
      req2.data =
        (((s.rf.registers.getD 15 0 + 12) % u32size) &&& 0xffff)
          ||| ((((s.rf.registers.getD 15 0 + 12) % u32size) <<< 16) % u32size)) := by
  constructor
  · intro s2 req2 hl hrd heq
    obtain ⟨am, em⟩ := get_register_isSome s.rf hmode
      (get_range s.arm_current_execute 19 16) 8 (get_range_lt_16 _ 16)
    by_cases hb : get_range s.arm_current_execute 22 22 = 1 <;>
      by_cases hptw : get_range s.arm_current_execute 24 24 = 0
          ∨ get_range s.arm_current_execute 21 21 = 1 <;>
        · simp [arm_single_data_transfer, hstep, hcond, hl, hrd, em, get_register_r15,
            hb, hptw, Option.bind_eq_some] at heq
          obtain ⟨off, hoff, heq⟩ := heq
          first
          | (obtain ⟨rfw, hw, hs2, hreq2⟩ := heq
             simp [← hreq2, hb])
          | (obtain ⟨hs2, hreq2⟩ := heq
             simp [← hreq2, hb])
  · intro s2 req2 hl hop hrd heq
    obtain ⟨am, em⟩ := get_register_isSome s.rf hmode
      (get_range s.arm_current_execute 19 16) 8 (get_range_lt_16 _ 16)
    by_cases hpw : get_range s.arm_current_execute 24 24 = 0
        ∨ get_range s.arm_current_execute 21 21 = 1 <;>
      · simp [arm_hw_transfer, hstep, hcond, hl, hop, hrd, em, get_register_r15,
          hpw, Option.bind_eq_some] at heq
        obtain ⟨off, hoff, heq⟩ := heq
        first
        | (obtain ⟨rfw, hw, hs2, hreq2⟩ := heq
           simp [← hreq2])
        | (obtain ⟨hs2, hreq2⟩ := heq
           simp [← hreq2])

/-- C10 witness: on `STR r15, [r0]` (0xE580F000, pc = 0) the driven data is
12 = pc + 12, and on `STRH r15, [r0]` (0xE1C0F0B0) it is 0x000C000C, the
halfword replication of 12. -/
theorem store_r15_drives_pc_plus_12_witness :
    MemoryRequest.data { req_gen with data := 12, nr_w := .HIGH } = 12
    ∧ MemoryRequest.data { req_gen with data := 786444, nr_w := .HIGH, mas := .HALFWORD }
        = 786444 := by
  have h := store_r15_drives_pc_plus_12 (mkCpu 0xE580F000 .STEP1) req_gen rsp_ok
    (by decide) rfl (by decide)
  have h2 := store_r15_drives_pc_plus_12 (mkCpu 0xE1C0F0B0 .STEP1) req_gen rsp_ok
    (by decide) rfl (by decide)
  refine ⟨?_, ?_⟩
  · have hd := h.1 ({ mkCpu 0xE580F000 .STEP0 with data_is_fetch := false })
      ({ req_gen with data := 12, nr_w := .HIGH }) (by decide) (by decide) (by decide)
    rw [hd]
    decide
  · have hd := h2.2 ({ mkCpu 0xE1C0F0B0 .STEP0 with data_is_fetch := false })
      ({ req_gen with data := 786444, nr_w := .HIGH, mas := .HALFWORD })
      (by decide) (by decide) (by decide) (by decide)
    rw [hd]
    decide
